import Mathlib

set_option maxRecDepth 4000

deriving instance DecidableEq for Except

/-!
Verification development for the 83xParser repository.

The Python sources under scrutiny are `edi_parser.py`, `parser_835.py`,
`format_detect.py`, `app.py` (`_parse_csv`) and `parser_hl7v2.py`
(`_build_sheets`).  Each Lean definition below is a direct shallow
embedding of the corresponding Python function: strings are modelled as
Lean `String` (operated on through their character lists), Python floats
produced by `float()` on decimal literals are modelled as `Rat`, and
Python exceptions are modelled with `Except String`.
-/

namespace X83

/-- Characters Python's `str.strip()` / `str.isspace()` treat as whitespace
(ASCII and the C1 controls 0x1c-0x1f, 0x85; exotic Unicode space code
points are outside the data handled here). -/
def pyIsSpace (c : Char) : Bool :=
  c = ' ' ∨ c = '\t' ∨ c = '\n' ∨ c = '\r' ∨ c = Char.ofNat 11 ∨ c = Char.ofNat 12 ∨
  c = Char.ofNat 28 ∨ c = Char.ofNat 29 ∨ c = Char.ofNat 30 ∨ c = Char.ofNat 31 ∨
  c = Char.ofNat 133

/-- The Unicode byte-order mark, which `lstrip("﻿")` removes. -/
def bomChar : Char := Char.ofNat 0xFEFF

def lstripList (p : Char → Bool) (cs : List Char) : List Char := cs.dropWhile p

def rstripList (p : Char → Bool) (cs : List Char) : List Char :=
  ((cs.reverse).dropWhile p).reverse

/-- Python `s.lstrip()`. -/
def pyLStrip (s : String) : String := ⟨lstripList pyIsSpace s.data⟩

/-- Python `s.strip()`. -/
def pyStrip (s : String) : String :=
  ⟨rstripList pyIsSpace (lstripList pyIsSpace s.data)⟩

/-- Python `s.lstrip("﻿")`. -/
def dropBOM (s : String) : String := ⟨s.data.dropWhile (· = bomChar)⟩

/-- Python `s.upper()` (ASCII; the inputs of interest are ASCII). -/
def pyUpper (s : String) : String := ⟨s.data.map Char.toUpper⟩

/-- Python `s.lower()` (ASCII). -/
def pyLower (s : String) : String := ⟨s.data.map Char.toLower⟩

/-- Python single-character `s.split(sep)` on character lists. -/
def splitCharList (sep : Char) : List Char → List (List Char)
  | [] => [[]]
  | c :: rest =>
    if c = sep then [] :: splitCharList sep rest
    else
      match splitCharList sep rest with
      | [] => [[c]]
      | h :: t => (c :: h) :: t

/-- Python `s.split(sep)` for a one-character separator. -/
def pySplitChar (sep : Char) (s : String) : List String :=
  (splitCharList sep s.data).map (fun l => ⟨l⟩)

/-- Python `s[:n]` (character count). -/
def pyTake (n : Nat) (s : String) : String := ⟨s.data.take n⟩

/-- Python `s[a:b]` (character count, `b` clipped at the length). -/
def pySlice (a b : Nat) (s : String) : String := ⟨(s.data.take b).drop a⟩

/-- Python `len(s)` (character count). -/
def pyLen (s : String) : Nat := s.data.length

/-- Python `elements[i] if len(elements) > i else ""`. -/
def elemD (xs : List String) (i : Nat) : String := xs.getD i ""

/-- `startsWithList hay pat` : `pat` is a leading run of `hay`. -/
def startsWithList : List Char → List Char → Bool
  | _, [] => true
  | [], _ :: _ => false
  | a :: as, b :: bs => a = b && startsWithList as bs

/-- Python `s.startswith(t)`. -/
def pyStartsWith (s t : String) : Bool := startsWithList s.data t.data

/-- Helper for Python's `in` on strings: substring search on lists. -/
def containsSubList (pat : List Char) : List Char → Bool
  | [] => startsWithList [] pat
  | c :: t => startsWithList (c :: t) pat || containsSubList pat t

/-- Python `pat in s` for strings. -/
def pyContains (s pat : String) : Bool := containsSubList pat.data s.data

/-- Decimal digit run to a natural number. -/
def digitsToNat (cs : List Char) : Nat :=
  cs.foldl (fun a c => a * 10 + (c.toNat - 48)) 0

def allDigits (cs : List Char) : Bool := cs.all (·.isDigit)

/-- Model of Python `int(s)` on ordinary decimal literals: surrounding
whitespace, an optional sign, then a nonempty digit run (digit-group
underscores are not modelled). `none` models a raised `ValueError`. -/
def pyInt? (s : String) : Option Int :=
  let cs := (pyStrip s).data
  let core : List Char → Option Int := fun ds =>
    if ds ≠ [] ∧ allDigits ds then some (digitsToNat ds) else none
  match cs with
  | '+' :: rest => core rest
  | '-' :: rest => (core rest).map (fun n => -n)
  | _ => core cs

/-- Exponent part of a float literal: optional sign then nonempty digits. -/
def parseExp (cs : List Char) : Option Int :=
  let core : List Char → Option Int := fun ds =>
    if ds ≠ [] ∧ allDigits ds then some (digitsToNat ds) else none
  match cs with
  | '+' :: rest => core rest
  | '-' :: rest => (core rest).map (fun n => -n)
  | _ => core cs

/-- Mantissa of a float literal: digits with at most one dot, at least one
digit overall. -/
def parseDec (cs : List Char) : Option Rat :=
  match splitCharList '.' cs with
  | [i] => if i ≠ [] ∧ allDigits i then some (mkRat (digitsToNat i) 1) else none
  | [i, f] =>
    if (i ≠ [] ∨ f ≠ []) ∧ allDigits i ∧ allDigits f then
      some (mkRat (digitsToNat i * 10 ^ f.length + digitsToNat f) (10 ^ f.length))
    else none
  | _ => none

def applyExp (q : Rat) (e : Int) : Rat :=
  if 0 ≤ e then mkRat (q.num * 10 ^ e.toNat) q.den
  else mkRat q.num (q.den * 10 ^ e.natAbs)

/-- Mantissa with optional `e`/`E` exponent. -/
def parseMantissaExp (cs : List Char) : Option Rat :=
  match cs.splitOnP (fun c => c = 'e' ∨ c = 'E') with
  | [m] => parseDec m
  | [m, e] =>
    match parseDec m, parseExp e with
    | some q, some ex => some (applyExp q ex)
    | _, _ => none
  | _ => none

/-- Model of Python `float(s)` on ordinary decimal literals (`inf`, `nan`
and digit-group underscores are not modelled).  `none` models a raised
`ValueError`. -/
def pyFloat? (s : String) : Option Rat :=
  let cs := (pyStrip s).data
  match cs with
  | '+' :: rest => parseMantissaExp rest
  | '-' :: rest => (parseMantissaExp rest).map Rat.neg
  | _ => parseMantissaExp cs

/-- `edi_parser.safe_float` with its default `0.0`: Python
`float(val) if val else default` under `try/except` returning `default`. -/
def safe_float (val : String) : Rat :=
  if val = "" then 0 else (pyFloat? val).getD 0

/-- `edi_parser.safe_int` with its default `0`. -/
def safe_int (val : String) : Int :=
  if val = "" then 0 else (pyInt? val).getD 0

/-- `edi_parser.format_edi_date`.  The 6-character branch performs Python
`int(date_str[0:2])`, which raises `ValueError` on a non-numeric year;
that raise is modelled as `Except.error`. -/
def format_edi_date (date_str : String) : Except String String :=
  if date_str = "" then .ok "" else
  let t := pyStrip date_str
  if pyLen t = 8 then
    .ok (pySlice 4 6 t ++ "/" ++ pySlice 6 8 t ++ "/" ++ pySlice 0 4 t)
  else if pyLen t = 6 then
    match pyInt? (pySlice 0 2 t) with
    | none => .error "ValueError: invalid literal for int()"
    | some year =>
      let century := if year < 50 then "20" else "19"
      .ok (pySlice 2 4 t ++ "/" ++ pySlice 4 6 t ++ "/" ++ century ++ pySlice 0 2 t)
  else .ok t

/-! ## `EDIFile` (edi_parser.py) -/

structure EDIFile where
  raw : String
  element_sep : Char
  sub_element_sep : Char
  segment_term : Char
  segments : List String
deriving DecidableEq

/-- The text `EDIFile._detect_delimiters` inspects:
`self.raw.lstrip("﻿").lstrip()` where `self.raw = raw_content.strip()`. -/
def detectContent (raw_content : String) : String :=
  pyLStrip (dropBOM (pyStrip raw_content))

/-- `EDIFile._detect_delimiters`: validation plus the three fixed-offset
delimiter characters. -/
def detect_delimiters (raw : String) : Except String (Char × Char × Char) :=
  let content := pyLStrip (dropBOM raw)
  if ¬ pyStartsWith (pyUpper content) "ISA" then
    .error "File does not appear to be a valid EDI X12 file (missing ISA segment)"
  else if pyLen content < 106 then
    .error "File is too short to contain a valid ISA segment"
  else
    .ok (content.data.getD 3 ' ', content.data.getD 104 ' ', content.data.getD 105 ' ')

/-- `seg.strip().replace("\n", "").replace("\r", "")`. -/
def cleanSeg (seg : String) : String :=
  ⟨(pyStrip seg).data.filter (fun c => c ≠ '\n' ∧ c ≠ '\r')⟩

/-- `EDIFile._split_segments`. -/
def split_segments (raw : String) (term : Char) : List String :=
  let content := pyStrip (dropBOM raw)
  ((pySplitChar term content).map cleanSeg).filter (· ≠ "")

/-- `EDIFile.__init__`: strip the raw content, detect delimiters (which can
raise `ValueError`), then split segments. -/
def mkEDIFile (raw_content : String) : Except String EDIFile :=
  let raw := pyStrip raw_content
  match detect_delimiters raw with
  | .error e => .error e
  | .ok (es, ses, st) => .ok ⟨raw, es, ses, st, split_segments raw st⟩

/-- `EDIFile.get_elements`. -/
def get_elements (esep : Char) (segment_str : String) : List String :=
  pySplitChar esep segment_str

/-- Identifier of a segment (`elements[0].upper()`). -/
def segIdOf (esep : Char) (seg : String) : String :=
  pyUpper (elemD (get_elements esep seg) 0)

/-- Loop body of `EDIFile.get_transaction_type`. -/
def getTransactionTypeAux (esep : Char) : List String → Option String
  | [] => none
  | seg :: rest =>
    let elements := get_elements esep seg
    if pyUpper (elemD elements 0) = "ST" then
      let code := elemD elements 1
      if code = "835" then some "835"
      else if code = "837" then some "837"
      else getTransactionTypeAux esep rest
    else getTransactionTypeAux esep rest

/-- `EDIFile.get_transaction_type`. -/
def get_transaction_type (e : EDIFile) : Option String :=
  getTransactionTypeAux e.element_sep e.segments

/-- Loop of `EDIFile.get_transactions`, threading `current` and `inside`. -/
def getTransactionsAux (esep : Char) (current : List String) (inside : Bool) :
    List String → List (List String)
  | [] => []
  | seg :: rest =>
    let segId := segIdOf esep seg
    if segId = "ST" then getTransactionsAux esep [seg] true rest
    else if segId = "SE" then
      if inside then (current ++ [seg]) :: getTransactionsAux esep [] false rest
      else getTransactionsAux esep [] false rest
    else if inside then getTransactionsAux esep (current ++ [seg]) inside rest
    else getTransactionsAux esep current inside rest

/-- `EDIFile.get_transactions` (the generator, materialised as a list). -/
def get_transactions (e : EDIFile) : List (List String) :=
  getTransactionsAux e.element_sep [] false e.segments

/-! ## parser_835.py -/

/-- Python `dict.get(key, default)` over an association list (all the code
tables have distinct keys, so first-match lookup is faithful). -/
def tableGet (t : List (String × String)) (key dflt : String) : String :=
  match t.find? (fun p => p.1 = key) with
  | some p => p.2
  | none => dflt

/-- `parser_835.CLAIM_STATUS`. -/
def CLAIM_STATUS : List (String × String) := [
  ("1", "Processed as Primary"),
  ("2", "Processed as Secondary"),
  ("3", "Processed as Tertiary"),
  ("4", "Denied"),
  ("19", "Processed as Primary, Forwarded"),
  ("20", "Processed as Secondary, Forwarded"),
  ("21", "Processed as Tertiary, Forwarded"),
  ("22", "Reversal of Previous Payment"),
  ("23", "Not Our Claim, Forwarded"),
  ("25", "Reject")]

/-- `parser_835.CAS_GROUP_CODES`. -/
def CAS_GROUP_CODES : List (String × String) := [
  ("CO", "Contractual Obligation"),
  ("CR", "Correction/Reversal"),
  ("OA", "Other Adjustment"),
  ("PI", "Payor Initiated Reduction"),
  ("PR", "Patient Responsibility")]

/-- `parser_835.PAYMENT_METHODS`. -/
def PAYMENT_METHODS : List (String × String) := [
  ("ACH", "ACH (Electronic)"),
  ("CHK", "Check"),
  ("BOP", "Financial Institution Option"),
  ("FWT", "Federal Reserve Wire Transfer"),
  ("NON", "Non-Payment Data")]

/-- `parser_835.REASON_CODES` (Claim Adjustment Reason Codes). -/
def REASON_CODES : List (String × String) := [
  ("1", "Deductible"),
  ("2", "Coinsurance"),
  ("3", "Copayment"),
  ("4", "Procedure not consistent with modifier or modifier missing"),
  ("5", "Procedure code inconsistent with place of service"),
  ("6", "Procedure/revenue code inconsistent with patient age"),
  ("9", "Diagnosis inconsistent with procedure"),
  ("10", "Diagnosis inconsistent with patient age"),
  ("11", "Diagnosis inconsistent with patient gender"),
  ("13", "Date of death precedes date of service"),
  ("14", "Date of birth follows date of service"),
  ("16", "Claim/service lacks information needed for adjudication"),
  ("18", "Exact duplicate claim/service"),
  ("19", "Expense incurred during lapse in coverage"),
  ("20", "Procedure/service not covered by benefits"),
  ("22", "Care may be covered by another payer"),
  ("23", "Payment adjusted (authorized amount)"),
  ("24", "Charges covered under capitation agreement"),
  ("26", "Expenses incurred prior to coverage"),
  ("27", "Expenses incurred after coverage terminated"),
  ("29", "Timely filing limit"),
  ("31", "Patient not eligible on date of service"),
  ("32", "Our records indicate patient is an inpatient"),
  ("33", "Equipment supply from another provider"),
  ("34", "Equipment supply already provided"),
  ("35", "Bundled/inclusive with another service"),
  ("39", "Revenue code and procedure code do not match"),
  ("40", "Charges do not meet qualifications for emergent/urgent care"),
  ("44", "Exceeds plan/payer limitation"),
  ("45", "Charges exceed fee schedule/maximum allowable"),
  ("49", "Non-covered (routine/preventive)"),
  ("50", "Non-covered unless condition coded/documented"),
  ("51", "Non-covered (pre-existing condition)"),
  ("53", "Services by an unauthorized provider"),
  ("54", "Multiple physicians/ambulance suppliers"),
  ("55", "Procedure/treatment not provided/utilized"),
  ("56", "Procedure/treatment not related to condition"),
  ("58", "Treatment was deemed experimental"),
  ("59", "Processed based on multiple/concurrent procedure rules"),
  ("66", "Blood deductible"),
  ("69", "Day outlier amount"),
  ("70", "Cost outlier — Loss exceeds threshold"),
  ("89", "Professional fee removed from DRG price"),
  ("90", "Ingredient cost adjustment"),
  ("94", "Plan procedures not followed"),
  ("95", "Plan not approved (non-network provider)"),
  ("96", "Non-covered charge(s)"),
  ("97", "Payment adjusted (processed information)"),
  ("100", "Payment made to patient/insured"),
  ("101", "Predetermination/preauthorization/precertification pricing"),
  ("102", "Major medical adjustment"),
  ("103", "Provider promotional discount"),
  ("104", "Managed care withholding"),
  ("105", "Tax withholding"),
  ("106", "Patient payment option/election not in effect"),
  ("107", "Claim/service denied (related to another covered service)"),
  ("108", "Rent/purchase guidelines"),
  ("109", "Claim/service not covered by this payer"),
  ("110", "Billing data correction"),
  ("111", "Not covered unless specific condition is met"),
  ("112", "Service not furnished directly to patient"),
  ("114", "Procedure/product not approved by FDA"),
  ("115", "Procedure postponed/canceled/delayed"),
  ("116", "Claim lacks required network authorization"),
  ("117", "Payment adjusted due to patient transfer"),
  ("118", "Benefit reduced for diagnostic test ordered by referring physician"),
  ("119", "Benefit maximum for this time period reached"),
  ("121", "Indemnification adjustment"),
  ("122", "Psychiatric reduction"),
  ("125", "Payment adjusted (submission/billing error)"),
  ("128", "Newborn's services covered by mother's claim"),
  ("129", "Prior processing information"),
  ("130", "Claim submission fee"),
  ("131", "Claim denied (specific clinical criteria not met)"),
  ("132", "Prematurity adjustment (institutional claims only)"),
  ("133", "Adjusted based on stop-loss provisions"),
  ("134", "Processed through global surgery package"),
  ("135", "Plan limitations (e.g., number of leaves per period)"),
  ("136", "Failure to obtain second surgical opinion"),
  ("137", "Regulatory surcharges/assessments/recovery"),
  ("138", "Appeal or review adjustment"),
  ("139", "Capital costs above/below threshold"),
  ("140", "Patient/insured health ID not on file"),
  ("142", "Monthly benefit maximum reached"),
  ("143", "Portion of payment deferred"),
  ("144", "Incentive adjustment"),
  ("146", "Diagnosis denied (mismatched procedures)"),
  ("147", "Provider contracted/negotiated rate expired"),
  ("148", "Information from another provider not provided"),
  ("149", "Lifetime benefit maximum reached"),
  ("150", "Payer deems this not a covered service"),
  ("151", "Payment adjusted based on plan requirements"),
  ("152", "Payer deems patient not eligible for this service"),
  ("153", "Prior auth/preservice decision"),
  ("154", "Bundled charges; separate reimbursement not allowed"),
  ("155", "Patient refused service/treatment"),
  ("157", "Service/procedure denied (not authorized referral)"),
  ("158", "Service not authorized on this date"),
  ("159", "Service at inappropriate level"),
  ("160", "Injury/illness related to work"),
  ("161", "Injury/illness related to auto accident"),
  ("162", "Injury/illness related to another party"),
  ("163", "Attachment/other documentation not received"),
  ("164", "Attachment/other documentation incomplete"),
  ("166", "These services not payable from this payer"),
  ("167", "Diagnosis not covered"),
  ("169", "Alternate benefit has been provided"),
  ("170", "Payment is denied when performed by this provider type"),
  ("171", "Payment adjusted based on jurisdiction regulations"),
  ("172", "Payment adjusted based on reason of review"),
  ("173", "Service claim paid toward contribution to premium"),
  ("174", "Service paid at zero rate for this payer"),
  ("175", "Payment adjusted: prescription coverage"),
  ("176", "Claims paid in full"),
  ("177", "Patient has not met the deductible"),
  ("178", "Previous payment reversed due to retroactive disenrollment"),
  ("179", "Services not provided by network/primary care providers"),
  ("180", "Service not furnished in a certified ASC"),
  ("181", "Procedure code billed is not correct/valid"),
  ("182", "Secondary payment on a non-covered service"),
  ("183", "Service denied (point of service requirement not met)"),
  ("184", "Purchased service charge exceeds acceptable limit"),
  ("185", "Dental code submitted is not appropriate"),
  ("186", "Level of care not appropriate"),
  ("187", "Non-covered consumer directed health plan"),
  ("188", "Procedure code/service inconsistent with provider type/specialty"),
  ("189", "Not otherwise classified procedure code"),
  ("190", "Payment adjusted: missing or invalid CPT/HCPCS"),
  ("192", "Non-standard adjustment code from payer"),
  ("193", "Original payment decision is maintained"),
  ("194", "Anesthesia performed by the operating doctor"),
  ("195", "Refund issued to insured/subscriber"),
  ("197", "Precertification/notification/authorization/utilization—denied"),
  ("198", "Claim/service adjusted: type of claim conflict"),
  ("199", "Revenue code and procedure code subject to NCCI edits"),
  ("200", "Expenses incurred during lapse/waiting period"),
  ("201", "Workers comp case settled; future bills not payable"),
  ("202", "Non-covered personal comfort/convenience item"),
  ("203", "Discontinued/reduced service"),
  ("204", "Service/equipment/drug not covered by this payer's plan"),
  ("205", "Pharmacy discount"),
  ("206", "National Drug Code (NDC) not covered"),
  ("207", "Dispensing fee adjustment"),
  ("208", "Claim denied — pharmacy not eligible"),
  ("209", "Reduced for home health prospective payment"),
  ("210", "Payment adjusted: pre-admission testing"),
  ("211", "National Drug Code (NDC) not eligible"),
  ("212", "Claim denied: global maternity fee"),
  ("213", "Payment adjusted: in-network/out-of-network status"),
  ("215", "Payment adjusted per auto no-fault processing"),
  ("216", "Payment adjusted based on plan limits"),
  ("219", "Payment adjusted: concurrent care reduction"),
  ("222", "Clinical trial reduction"),
  ("223", "Adjustment code for mandated federal/state/local law"),
  ("224", "Patient identification changed"),
  ("225", "Duplicate of an original claim processed as an adjustment"),
  ("226", "Information requested from patient/insured/responsible party"),
  ("227", "Information requested from provider"),
  ("228", "Denied — no response to repeated requests"),
  ("229", "Patient identification compromised"),
  ("230", "No available/qualified review organization"),
  ("231", "Mutually exclusive procedures per NCCI"),
  ("232", "Institutional claims: readmission reduction"),
  ("233", "This service line is out of balance"),
  ("234", "Service not rendered in a network facility"),
  ("235", "Sales tax"),
  ("236", "Pharmacy: claim cost exceeds pricing threshold"),
  ("237", "Pharmacy: claim gap claim not covered"),
  ("238", "Pharmacy: claim is below cost threshold"),
  ("239", "Claim span dates overlap previously adjudicated dates"),
  ("240", "Charges adjusted based on plan benefit design"),
  ("241", "Low income subsidy (LIS) co-pay amount"),
  ("242", "Services not provided by network pharmacy"),
  ("243", "Services not authorized by network/primary care providers"),
  ("244", "Payment reduced to zero due to litigation"),
  ("245", "Provider performance bonus"),
  ("246", "This service is not covered when performed by this provider"),
  ("247", "Non-payable code billed in a non-covered charge"),
  ("248", "Non-covered service: patient requested"),
  ("249", "Outpatient/ER claim with admission: processed as inpatient"),
  ("250", "Plan deeming: services covered by a prior payer"),
  ("251", "Service(s) adjusted due to prior payer's adjudication"),
  ("252", "Adjustment using a payer-determined fee schedule"),
  ("253", "Sequestration: mandated reduction to federal payment"),
  ("254", "Observation charges bundled with inpatient admission"),
  ("255", "Bundled or included procedure/service"),
  ("256", "Service subject to regulatory mandated discount"),
  ("257", "Service covered at reduced rate due to plan change"),
  ("258", "Claim adjusted: provider-assessed appeal rights"),
  ("260", "Requirement for additional processing"),
  ("261", "DRG weight-adjusted payment"),
  ("262", "Claim adjusted based on payer quality program"),
  ("263", "Adjustment for timeliness of claims processing"),
  ("264", "Adjusted per Value-Based Purchasing (VBP) program")]

/-- One CAS adjustment record built in `_parse_transaction`. -/
structure Adjustment where
  group_code : String
  group_description : String
  reason_code : String
  reason_description : String
  amount : Rat
  quantity : Rat
deriving DecidableEq

/-- One SVC service-line record built in `_parse_transaction`
(`_claim_id` is the carried-forward claim control number). -/
structure ServiceLine where
  procedure_code : String
  procedure_qualifier : String
  modifiers : String
  charge_amount : Rat
  payment_amount : Rat
  revenue_code : String
  units_paid : Rat
  original_procedure_code : String
  original_units : Rat
  service_date : String
  adjustments : List Adjustment
  remark_codes : List String
  claim_id : String
deriving DecidableEq

/-- One CLP claim record built in `_parse_transaction`. -/
structure Claim835 where
  patient_control_number : String
  claim_status : String
  claim_status_code : String
  total_charge : Rat
  payment_amount : Rat
  patient_responsibility : Rat
  filing_indicator : String
  payer_claim_number : String
  patient_last_name : String
  patient_first_name : String
  insured_last_name : String
  insured_first_name : String
  corrected_insured_last_name : String
  corrected_insured_first_name : String
  rendering_provider_last_name : String
  rendering_provider_first_name : String
  rendering_provider_npi : String
  claim_received_date : String
  claim_statement_from : String
  claim_statement_to : String
  coverage_expiration_date : String
  adjustments : List Adjustment
  service_lines : List ServiceLine
deriving DecidableEq

/-- The `payment` dict of `_parse_transaction`. -/
structure Payment835 where
  payment_amount : Rat
  payment_method : String
  payment_date : String
  trace_number : String
  payer_name : String
  payer_id : String
  payee_name : String
  payee_id : String
deriving DecidableEq

/-- A fresh CLP claim (`current_claim` as first assigned). -/
def newClaim (elements : List String) : Claim835 :=
  let status_code := elemD elements 2
  { patient_control_number := elemD elements 1
    claim_status := tableGet CLAIM_STATUS status_code status_code
    claim_status_code := status_code
    total_charge := if 3 < elements.length then safe_float (elemD elements 3) else 0
    payment_amount := if 4 < elements.length then safe_float (elemD elements 4) else 0
    patient_responsibility := if 5 < elements.length then safe_float (elemD elements 5) else 0
    filing_indicator := elemD elements 6
    payer_claim_number := elemD elements 7
    patient_last_name := ""
    patient_first_name := ""
    insured_last_name := ""
    insured_first_name := ""
    corrected_insured_last_name := ""
    corrected_insured_first_name := ""
    rendering_provider_last_name := ""
    rendering_provider_first_name := ""
    rendering_provider_npi := ""
    claim_received_date := ""
    claim_statement_from := ""
    claim_statement_to := ""
    coverage_expiration_date := ""
    adjustments := []
    service_lines := [] }

/-- A fresh SVC service line (`current_svc` as first assigned). -/
def newServiceLine (ssep : Char) (elements : List String) (claimId : String) :
    ServiceLine :=
  let proc_composite := elemD elements 1
  let sub := pySplitChar ssep proc_composite
  let proc_qualifier := elemD sub 0
  let proc_code := elemD sub 1
  let modifiers := sub.drop 2
  let orig_composite := elemD elements 6
  let orig_sub := if orig_composite ≠ "" then pySplitChar ssep orig_composite else []
  let orig_code := elemD orig_sub 1
  { procedure_code := proc_code
    procedure_qualifier := proc_qualifier
    modifiers := if modifiers = [] then "" else String.intercalate ":" modifiers
    charge_amount := if 2 < elements.length then safe_float (elemD elements 2) else 0
    payment_amount := if 3 < elements.length then safe_float (elemD elements 3) else 0
    revenue_code := elemD elements 4
    units_paid := if 5 < elements.length then safe_float (elemD elements 5) else 0
    original_procedure_code := orig_code
    original_units := if 7 < elements.length then safe_float (elemD elements 7) else 0
    service_date := ""
    adjustments := []
    remark_codes := []
    claim_id := claimId }

/-- The CAS `while` loop of `_parse_transaction`, embedded as recursion
over the element suffix starting at the loop index (the loop reads
`elements[i]`, `elements[i+1]`, `elements[i+2]` and steps `i` by 3, so
iterating at index `i` is recursion on `elements.drop i`).  The loop
runs while `i < len and i + 1 < len`, i.e. while the reason and amount
elements both exist; the quantity falls back to `0.0` when absent; a
triplet with an empty reason is skipped via `continue`. -/
def casTriplets (group_code group_desc : String) : List String → List Adjustment
  | r :: a :: q :: rest =>
    if r = "" then casTriplets group_code group_desc rest
    else
      { group_code := group_code
        group_description := group_desc
        reason_code := r
        reason_description := tableGet REASON_CODES r ""
        amount := safe_float a
        quantity := safe_float q } :: casTriplets group_code group_desc rest
  | [r, a] =>
    if r = "" then []
    else
      [{ group_code := group_code
         group_description := group_desc
         reason_code := r
         reason_description := tableGet REASON_CODES r ""
         amount := safe_float a
         quantity := 0 }]
  | _ => []

/-- Mutable locals of `_parse_transaction`. -/
structure TxState where
  payment : Payment835
  claims : List Claim835
  current_claim : Option Claim835
  current_svc : Option ServiceLine
  context : String
deriving DecidableEq

def initTxState : TxState :=
  { payment :=
      { payment_amount := 0, payment_method := "", payment_date := ""
        trace_number := "", payer_name := "", payer_id := ""
        payee_name := "", payee_id := "" }
    claims := []
    current_claim := none
    current_svc := none
    context := "header" }

/-- One iteration of the segment loop of `_parse_transaction`.  Python
exceptions escaping the loop (from `format_edi_date`) are `Except.error`.
The second `DTM` arm of the source's `elif` chain (claim/service dates)
is reproduced below the first one exactly as written; like in the
source it can never be reached, because the first `DTM` arm matches
every DTM segment. -/
def txStep (esep ssep : Char) (st : TxState) (seg_str : String) :
    Except String TxState :=
  let elements := get_elements esep seg_str
  let seg_id := pyUpper (elemD elements 0)
  if seg_id = "BPR" then
    let p := st.payment
    let p := { p with payment_amount :=
                 if 2 < elements.length then safe_float (elemD elements 2) else 0 }
    let p := if 4 < elements.length then
               let method := elemD elements 4
               { p with payment_method := tableGet PAYMENT_METHODS method method }
             else p
    if 16 < elements.length then
      match format_edi_date (elemD elements 16) with
      | .error e => .error e
      | .ok d => .ok { st with payment := { p with payment_date := d } }
    else .ok { st with payment := p }
  else if seg_id = "TRN" then
    if 2 < elements.length then
      .ok { st with payment := { st.payment with trace_number := elemD elements 2 } }
    else .ok st
  else if seg_id = "N1" then
    let entity := elemD elements 1
    let name := elemD elements 2
    let id_code := elemD elements 4
    if entity = "PR" then
      .ok { st with payment := { st.payment with payer_name := name, payer_id := id_code } }
    else if entity = "PE" then
      .ok { st with payment := { st.payment with payee_name := name, payee_id := id_code } }
    else .ok st
  else if seg_id = "DTM" then
    let qualifier := elemD elements 1
    (if 2 < elements.length then format_edi_date (elemD elements 2)
     else .ok "").bind fun date_val =>
      if qualifier = "405" ∧ st.payment.payment_date = "" then
        .ok { st with payment := { st.payment with payment_date := date_val } }
      else .ok st
  else if seg_id = "CLP" then
    let st :=
      match st.current_claim with
      | some c =>
        let c := match st.current_svc with
                 | some svc => { c with service_lines := c.service_lines ++ [svc] }
                 | none => c
        { st with claims := st.claims ++ [c], current_svc := none }
      | none => st
    .ok { st with current_claim := some (newClaim elements)
                  context := "claim", current_svc := none }
  else if seg_id = "NM1" ∧ st.current_claim.isSome then
    match st.current_claim with
    | none => .ok st
    | some c =>
      let entity := elemD elements 1
      let last_name := elemD elements 3
      let first_name := elemD elements 4
      let id_code := elemD elements 9
      let c :=
        if entity = "QC" then
          { c with patient_last_name := last_name, patient_first_name := first_name }
        else if entity = "IL" then
          { c with insured_last_name := last_name, insured_first_name := first_name }
        else if entity = "74" then
          { c with corrected_insured_last_name := last_name
                   corrected_insured_first_name := first_name }
        else if entity = "82" then
          { c with rendering_provider_last_name := last_name
                   rendering_provider_first_name := first_name
                   rendering_provider_npi := id_code }
        else c
      .ok { st with current_claim := some c }
  else if seg_id = "SVC" ∧ st.current_claim.isSome then
    match st.current_claim with
    | none => .ok st
    | some c =>
      let (c, st) :=
        match st.current_svc with
        | some svc =>
          let c := { c with service_lines := c.service_lines ++ [svc] }
          (c, { st with current_claim := some c })
        | none => (c, st)
      .ok { st with current_claim := some c
                    current_svc := some (newServiceLine ssep elements c.patient_control_number)
                    context := "service" }
  else if seg_id = "CAS" then
    let group_code := elemD elements 1
    let group_desc := tableGet CAS_GROUP_CODES group_code group_code
    let adjs := casTriplets group_code group_desc (elements.drop 2)
    if st.context = "service" ∧ st.current_svc.isSome then
      match st.current_svc with
      | some svc =>
        .ok { st with current_svc := some { svc with adjustments := svc.adjustments ++ adjs } }
      | none => .ok st
    else
      match st.current_claim with
      | some c =>
        .ok { st with current_claim := some { c with adjustments := c.adjustments ++ adjs } }
      | none => .ok st
  else if seg_id = "DTM" ∧ st.current_claim.isSome then
    let qualifier := elemD elements 1
    (if 2 < elements.length then format_edi_date (elemD elements 2)
     else .ok "").bind fun date_val =>
      if st.context = "service" ∧ st.current_svc.isSome then
        match st.current_svc with
        | some svc =>
          if qualifier = "472" ∨ qualifier = "150" ∨ qualifier = "151" then
            .ok { st with current_svc := some { svc with service_date := date_val } }
          else .ok st
        | none => .ok st
      else if st.context = "claim" then
        match st.current_claim with
        | some c =>
          if qualifier = "050" then
            .ok { st with current_claim := some { c with claim_received_date := date_val } }
          else if qualifier = "232" then
            .ok { st with current_claim := some { c with claim_statement_from := date_val } }
          else if qualifier = "233" then
            .ok { st with current_claim := some { c with claim_statement_to := date_val } }
          else if qualifier = "036" then
            .ok { st with current_claim := some { c with coverage_expiration_date := date_val } }
          else .ok st
        | none => .ok st
      else .ok st
  else if seg_id = "AMT" ∧ st.current_claim.isSome then
    .ok st
  else if seg_id = "LQ" ∧ st.current_svc.isSome then
    match st.current_svc with
    | none => .ok st
    | some svc =>
      let qualifier := elemD elements 1
      let code := elemD elements 2
      if qualifier = "HE" ∨ qualifier = "RX" then
        .ok { st with current_svc := some { svc with remark_codes := svc.remark_codes ++ [code] } }
      else .ok st
  else .ok st

/-- Result dict of `_parse_transaction`. -/
structure TxResult where
  transaction_type : String
  payment : Payment835
  claims : List Claim835
deriving DecidableEq

/-- End-of-loop flush of `_parse_transaction`. -/
def finishTx (st : TxState) : TxResult :=
  let claims :=
    match st.current_claim with
    | some c =>
      let c := match st.current_svc with
               | some svc => { c with service_lines := c.service_lines ++ [svc] }
               | none => c
      st.claims ++ [c]
    | none => st.claims
  { transaction_type := "835", payment := st.payment, claims := claims }

/-- `parser_835._parse_transaction`. -/
def parse_transaction (esep ssep : Char) (segments : List String) :
    Except String TxResult :=
  (segments.foldlM (txStep esep ssep) initTxState).map finishTx

/-- `parser_835.parse_835` as a function of the envelope's delimiters and
segment list (the only parts of the `EDIFile` it reads). -/
def parse835On (esep ssep : Char) (segments : List String) :
    Except String (List TxResult) :=
  (getTransactionsAux esep [] false segments).mapM (parse_transaction esep ssep)

/-- `parser_835.parse_835` (each `_parse_transaction` result is a
non-empty dict, hence truthy, so every transaction is kept). -/
def parse_835 (e : EDIFile) : Except String (List TxResult) :=
  parse835On e.element_sep e.sub_element_sep e.segments

/-! ## format_detect.py -/

/-- NCPDP control characters 0x1C/0x1D/0x1E. -/
def isNcpdpCtrl (c : Char) : Prop :=
  c = Char.ofNat 28 ∨ c = Char.ofNat 29 ∨ c = Char.ofNat 30

instance (c : Char) : Decidable (isNcpdpCtrl c) := by
  unfold isNcpdpCtrl; infer_instance

/-- Python `"\x1c" in s or "\x1d" in s or "\x1e" in s`. -/
def hasNcpdpCtrl (s : String) : Bool :=
  s.data.any (fun c => decide (isNcpdpCtrl c))

/-- Python `re.match(r"^\d{6}(51|D0)", s)` as a Boolean. -/
def binMatch (s : String) : Bool :=
  (s.data.take 6).length = 6 && allDigits (s.data.take 6) &&
    (startsWithList (s.data.drop 6) ['5', '1'] || startsWithList (s.data.drop 6) ['D', '0'])

/-- Python `re.match(r"^(MSH|FHS|BHS)[|^]", s)` as a Boolean. -/
def hl7HeadMatch (s : String) : Bool :=
  (pyStartsWith s "MSH" || pyStartsWith s "FHS" || pyStartsWith s "BHS") &&
    (s.data.getD 3 ' ' = '|' || s.data.getD 3 ' ' = '^')

/-- Shape of a `json.loads` result, carrying exactly what `detect_format`
inspects: a dict and whether it has a `resourceType` key, a list and
whether it is non-empty with a first-element dict holding that key, or
any other JSON value. -/
inductive PyJson where
  | pdict (hasResourceType : Bool)
  | parr (headIsDictWithRT : Bool)
  | pother
deriving DecidableEq

def jsonHasRT : PyJson → Bool
  | .pdict b => b
  | .parr b => b
  | .pother => false

/-- Python `s.split("\n", 5)`-style bounded split. -/
def splitNCharList (sep : Char) : Nat → List Char → List (List Char)
  | _, [] => [[]]
  | 0, cs => [cs]
  | Nat.succ n, c :: rest =>
    if c = sep then [] :: splitNCharList sep n rest
    else
      match splitNCharList sep (Nat.succ n) rest with
      | [] => [[c]]
      | h :: t => (c :: h) :: t

def natListMin : List Nat → Nat
  | [] => 0
  | c :: cs => cs.foldl Nat.min c

def natListMax : List Nat → Nat
  | [] => 0
  | c :: cs => cs.foldl Nat.max c

/-- One iteration of the delimiter loop of `detect_format`'s CSV check:
per-line counts of `d` over the non-blank of the first 5 lines, with
`counts and min(counts) >= 1 and max(counts) - min(counts) <= 2`. -/
def csvDelimOk (lines : List String) (d : Char) : Bool :=
  let counts := (lines.take 5).filterMap
    (fun l => if pyStrip l = "" then none else some (l.data.count d))
  if counts = [] then false
  else if natListMin counts < 1 then false
  else if 2 < natListMax counts - natListMin counts then false
  else true

/-- Final CSV/TSV sniff of `detect_format`. -/
def detectCsvLines (stripped : String) : Option String :=
  let lines := (splitNCharList '\n' 5 stripped.data).map (fun l => (⟨l⟩ : String))
  if 2 ≤ lines.length then
    if csvDelimOk lines ',' then some "csv"
    else if csvDelimOk lines '\t' then some "csv"
    else if csvDelimOk lines '|' then some "csv"
    else none
  else none

/-- XML sniff of `detect_format`, falling through to the CSV check. -/
def detectXmlOrCsv (stripped : String) : Option String :=
  if pyStartsWith stripped "<" ∨ pyStartsWith stripped "<?xml" then
    let lower := pyLower (pyTake 2000 stripped)
    if pyContains lower "fhir" ∨
       pyContains (pyTake 2000 stripped) "xmlns=\"http://hl7.org/fhir\"" then some "fhir"
    else if pyContains lower "clinicaldocument" ∨ pyContains lower "urn:hl7-org:v3" then
      some "cda"
    else if pyContains lower "urn:hl7-org:v3" then some "cda"
    else some "csv"
  else detectCsvLines stripped

/-- `format_detect.detect_format`, parameterised by the behaviour of the
standard library's `json.loads` (`none` models a parse error; a failed
parse falls through to the XML and CSV checks exactly as the `except`
clause does). -/
def detect_format (jsonLoads : String → Option PyJson) (content : String) :
    Option String :=
  if content = "" ∨ pyStrip content = "" then none
  else
    let cleaned := dropBOM content
    let stripped := pyStrip cleaned
    if cleaned ≠ "" ∧ isNcpdpCtrl (cleaned.data.getD 0 ' ') then some "ncpdp"
    else if hasNcpdpCtrl (pyTake 200 content) then some "ncpdp"
    else if binMatch stripped then some "ncpdp"
    else if pyUpper (pyTake 3 stripped) = "ISA" ∧ 106 ≤ pyLen stripped then some "x12"
    else if hl7HeadMatch stripped then some "hl7v2"
    else if pyContains stripped "\nMSH|" ∨ pyContains stripped "\rMSH|" then some "hl7v2"
    else if pyStartsWith stripped "\x7b" ∨ pyStartsWith stripped "[" then
      match jsonLoads stripped with
      | some v => some (if jsonHasRT v then "fhir" else "csv")
      | none => detectXmlOrCsv stripped
    else detectXmlOrCsv stripped

/-! ## The Sheet model and app._parse_csv -/

/-- The Sheet record every parser emits. -/
structure Sheet where
  name : String
  headers : List String
  rows : List (List String)
  currency_cols : List Nat
deriving DecidableEq

/-- `app._parse_csv`, parameterised by the output of the standard
library's `csv.reader` (`rows_data`) and of `csv.Sniffer.has_header`
(`has_header`); the header selection and the padding of short rows are
the source's own code. -/
def parse_csv_sheets (rows_data : List (List String)) (has_header : Bool) :
    List Sheet :=
  match rows_data with
  | [] => []
  | first_row :: rest =>
    let hr :=
      if has_header then (first_row, rest)
      else ((List.range first_row.length).map (fun i => "Column " ++ toString (i + 1)),
            first_row :: rest)
    let headers := hr.1
    let max_cols := headers.length
    let padded_rows := hr.2.map (fun row =>
      let row := if row.length < max_cols then
                   row ++ List.replicate (max_cols - row.length) ""
                 else row
      row.take max_cols)
    [{ name := "Data", headers := headers, rows := padded_rows, currency_cols := [] }]

/-! ## parser_hl7v2._build_sheets

The per-message dicts produced by `_parse_single` are modelled as records
with one field per key `_build_sheets` reads; `m.get(key, "")` on a dict
is the corresponding field (defaulting to `""` matches a record field
that holds `""`). -/

structure HL7Patient where
  patient_name : String
  patient_id : String
  patient_ids : String
  dob : String
  gender : String
  address : String
  home_phone : String
  account_number : String
  ssn : String
deriving DecidableEq

structure HL7Visit where
  patient_class : String
  location : String
  room : String
  bed : String
  attending_doctor : String
  referring_doctor : String
  admitting_doctor : String
  hospital_service : String
  visit_number : String
  admit_date : String
  discharge_date : String
  discharge_disposition : String
  admit_source : String
deriving DecidableEq

structure HL7Order where
  order_control : String
  placer_order_num : String
  filler_order_num : String
  order_status : String
  service_id : String
  service_name : String
  ordering_provider : String
  order_datetime : String
  observation_datetime : String
  results_datetime : String
  result_status : String
  reason : String
deriving DecidableEq

structure HL7Obs where
  set_id : String
  observation_id : String
  observation_name : String
  observation_value : String
  units : String
  reference_range : String
  abnormal_flags : String
  result_status : String
  observation_datetime : String
  value_type : String
deriving DecidableEq

structure HL7Dx where
  set_id : String
  diagnosis_code : String
  diagnosis_description : String
  diagnosis_type : String
  diagnosis_datetime : String
deriving DecidableEq

structure HL7Ins where
  set_id : String
  plan_id : String
  plan_name : String
  company_id : String
  company_name : String
  group_number : String
  group_name : String
  insured_name : String
  policy_number : String
  plan_effective_date : String
  plan_expiration_date : String
deriving DecidableEq

structure HL7Allergy where
  set_id : String
  allergen_type : String
  allergen : String
  severity : String
  reaction : String
deriving DecidableEq

structure HL7Fin where
  transaction_date : String
  transaction_type : String
  transaction_code : String
  transaction_description : String
  quantity : String
  amount_extended : String
  amount_unit : String
  procedure_code : String
  procedure_description : String
  diagnosis_code : String
deriving DecidableEq

structure HL7Sched where
  placer_appt_id : String
  filler_appt_id : String
  appointment_reason : String
  appointment_type : String
  start_datetime : String
  end_datetime : String
  duration : String
  filler_status : String
deriving DecidableEq

structure HL7ParsedMsg where
  message_type : String
  trigger_event : String
  message_datetime : String
  message_control_id : String
  version : String
  sending_app : String
  sending_facility : String
  receiving_app : String
  receiving_facility : String
  patients : List HL7Patient
  visits : List HL7Visit
  orders : List HL7Order
  observations : List HL7Obs
  diagnoses : List HL7Dx
  insurance : List HL7Ins
  allergies : List HL7Allergy
  financials : List HL7Fin
  schedules : List HL7Sched
deriving DecidableEq

def hl7MsgRow (m : HL7ParsedMsg) : List String :=
  [m.message_type, m.trigger_event, m.message_datetime, m.message_control_id,
   m.version, m.sending_app, m.sending_facility, m.receiving_app,
   m.receiving_facility]

def hl7PatientRows (msgs : List HL7ParsedMsg) : List (List String) :=
  msgs.flatMap (fun m => m.patients.map (fun p =>
    m.message_control_id :: [p.patient_name, p.patient_id, p.patient_ids, p.dob,
      p.gender, p.address, p.home_phone, p.account_number, p.ssn]))

def hl7VisitRows (msgs : List HL7ParsedMsg) : List (List String) :=
  msgs.flatMap (fun m => m.visits.map (fun v =>
    m.message_control_id :: [v.patient_class, v.location, v.room, v.bed,
      v.attending_doctor, v.referring_doctor, v.admitting_doctor,
      v.hospital_service, v.visit_number, v.admit_date, v.discharge_date,
      v.discharge_disposition, v.admit_source]))

def hl7OrderRows (msgs : List HL7ParsedMsg) : List (List String) :=
  msgs.flatMap (fun m => m.orders.map (fun o =>
    m.message_control_id :: [o.order_control, o.placer_order_num,
      o.filler_order_num, o.order_status, o.service_id, o.service_name,
      o.ordering_provider, o.order_datetime, o.observation_datetime,
      o.results_datetime, o.result_status, o.reason]))

def hl7ObsRows (msgs : List HL7ParsedMsg) : List (List String) :=
  msgs.flatMap (fun m => m.observations.map (fun o =>
    m.message_control_id :: [o.set_id, o.observation_id, o.observation_name,
      o.observation_value, o.units, o.reference_range, o.abnormal_flags,
      o.result_status, o.observation_datetime, o.value_type]))

def hl7DxRows (msgs : List HL7ParsedMsg) : List (List String) :=
  msgs.flatMap (fun m => m.diagnoses.map (fun d =>
    m.message_control_id :: [d.set_id, d.diagnosis_code,
      d.diagnosis_description, d.diagnosis_type, d.diagnosis_datetime]))

def hl7InsRows (msgs : List HL7ParsedMsg) : List (List String) :=
  msgs.flatMap (fun m => m.insurance.map (fun i =>
    m.message_control_id :: [i.set_id, i.plan_id, i.plan_name, i.company_id,
      i.company_name, i.group_number, i.group_name, i.insured_name,
      i.policy_number, i.plan_effective_date, i.plan_expiration_date]))

def hl7AllergyRows (msgs : List HL7ParsedMsg) : List (List String) :=
  msgs.flatMap (fun m => m.allergies.map (fun a =>
    m.message_control_id :: [a.set_id, a.allergen_type, a.allergen,
      a.severity, a.reaction]))

def hl7FinRows (msgs : List HL7ParsedMsg) : List (List String) :=
  msgs.flatMap (fun m => m.financials.map (fun f =>
    m.message_control_id :: [f.transaction_date, f.transaction_type,
      f.transaction_code, f.transaction_description, f.quantity,
      f.amount_extended, f.amount_unit, f.procedure_code,
      f.procedure_description, f.diagnosis_code]))

def hl7SchedRows (msgs : List HL7ParsedMsg) : List (List String) :=
  msgs.flatMap (fun m => m.schedules.map (fun s =>
    m.message_control_id :: [s.placer_appt_id, s.filler_appt_id,
      s.appointment_reason, s.appointment_type, s.start_datetime,
      s.end_datetime, s.duration, s.filler_status]))

/-- `parser_hl7v2._build_sheets` (a sheet is appended only when it has at
least one row, except the always-present messages sheet). -/
def build_sheets (msgs : List HL7ParsedMsg) : List Sheet :=
  [⟨"HL7 Messages",
    ["Message Type", "Trigger Event", "Message Date/Time",
     "Message Control ID", "Version", "Sending Application",
     "Sending Facility", "Receiving Application", "Receiving Facility"],
    msgs.map hl7MsgRow, []⟩] ++
  (if hl7PatientRows msgs ≠ [] then
    [⟨"HL7 Patients",
      ["Message Control ID", "Patient Name", "Patient ID", "All Patient IDs",
       "Date of Birth", "Gender", "Address", "Home Phone", "Account Number",
       "SSN"], hl7PatientRows msgs, []⟩] else []) ++
  (if hl7VisitRows msgs ≠ [] then
    [⟨"HL7 Visits",
      ["Message Control ID", "Patient Class", "Location", "Room", "Bed",
       "Attending Doctor", "Referring Doctor", "Admitting Doctor",
       "Hospital Service", "Visit Number", "Admit Date", "Discharge Date",
       "Discharge Disposition", "Admit Source"], hl7VisitRows msgs, []⟩]
   else []) ++
  (if hl7OrderRows msgs ≠ [] then
    [⟨"HL7 Orders",
      ["Message Control ID", "Order Control", "Placer Order #",
       "Filler Order #", "Order Status", "Service ID", "Service Name",
       "Ordering Provider", "Order Date/Time", "Observation Date/Time",
       "Results Date/Time", "Result Status", "Reason"],
      hl7OrderRows msgs, []⟩] else []) ++
  (if hl7ObsRows msgs ≠ [] then
    [⟨"HL7 Results",
      ["Message Control ID", "Set ID", "Observation ID", "Observation Name",
       "Value", "Units", "Reference Range", "Abnormal Flags", "Result Status",
       "Observation Date/Time", "Value Type"], hl7ObsRows msgs, []⟩]
   else []) ++
  (if hl7DxRows msgs ≠ [] then
    [⟨"HL7 Diagnoses",
      ["Message Control ID", "Set ID", "Diagnosis Code",
       "Diagnosis Description", "Diagnosis Type", "Diagnosis Date"],
      hl7DxRows msgs, []⟩] else []) ++
  (if hl7InsRows msgs ≠ [] then
    [⟨"HL7 Insurance",
      ["Message Control ID", "Set ID", "Plan ID", "Plan Name", "Company ID",
       "Company Name", "Group Number", "Group Name", "Insured Name",
       "Policy Number", "Plan Effective Date", "Plan Expiration Date"],
      hl7InsRows msgs, []⟩] else []) ++
  (if hl7AllergyRows msgs ≠ [] then
    [⟨"HL7 Allergies",
      ["Message Control ID", "Set ID", "Allergen Type", "Allergen",
       "Severity", "Reaction"], hl7AllergyRows msgs, []⟩] else []) ++
  (if hl7FinRows msgs ≠ [] then
    [⟨"HL7 Financial",
      ["Message Control ID", "Transaction Date", "Transaction Type",
       "Transaction Code", "Description", "Quantity", "Amount (Extended)",
       "Amount (Unit)", "Procedure Code", "Procedure Description",
       "Diagnosis Code"], hl7FinRows msgs, [7, 8]⟩] else []) ++
  (if hl7SchedRows msgs ≠ [] then
    [⟨"HL7 Scheduling",
      ["Message Control ID", "Placer Appointment ID", "Filler Appointment ID",
       "Appointment Reason", "Appointment Type", "Start Date/Time",
       "End Date/Time", "Duration", "Filler Status"],
      hl7SchedRows msgs, []⟩] else [])

/-! ## parser_hl7v2: the full `parse_hl7v2` entry point

`_parse_single` stores `_safe_float` results (a float or the original
string) in the financial records, so the sheets this entry point emits
carry `float | str` cells; they are modelled with `Cell`.  The
`_build_sheets` embedding above (`build_sheets`, string cells) is kept
for the width invariant; `build_sheetsV` below is the same construction
over `Cell` rows, consumed by `parse_hl7v2`. -/

/-- `parser_hl7v2.PATIENT_CLASS`. -/
def PATIENT_CLASS : List (String × String) := [
  ("I", "Inpatient"), ("O", "Outpatient"), ("E", "Emergency"),
  ("P", "Preadmit"), ("R", "Recurring Patient"), ("B", "Obstetrics"),
  ("N", "Not Applicable"), ("U", "Unknown")]

/-- `parser_hl7v2.GENDER`. -/
def GENDER : List (String × String) := [
  ("M", "Male"), ("F", "Female"), ("U", "Unknown"), ("O", "Other"),
  ("A", "Ambiguous")]

/-- `parser_hl7v2.DX_TYPE`. -/
def DX_TYPE : List (String × String) := [
  ("A", "Admitting"), ("F", "Final"), ("W", "Working"), ("D", "Discharge")]

/-- `parser_hl7v2.ORDER_CONTROL`. -/
def ORDER_CONTROL : List (String × String) := [
  ("NW", "New Order"), ("OK", "Order Accepted"), ("CA", "Cancel"),
  ("OC", "Order Canceled"), ("DC", "Discontinue"), ("HD", "Hold"),
  ("RL", "Release Hold"), ("SC", "Status Changed"), ("SN", "Send Number"),
  ("XO", "Change Order"), ("XR", "Changed as Requested"),
  ("RE", "Observations to Follow"), ("RU", "Replacement Unsolicited"),
  ("CH", "Child Order"), ("PA", "Parent Order")]

/-- `parser_hl7v2.RESULT_STATUS`. -/
def RESULT_STATUS : List (String × String) := [
  ("C", "Correction"), ("D", "Deleted"), ("F", "Final"),
  ("I", "Specimen In Lab"), ("O", "Order Received"), ("P", "Preliminary"),
  ("R", "Results Entered"), ("S", "Partial"), ("X", "Canceled"),
  ("U", "Results Unavailable"), ("W", "Post Original as Wrong")]

/-- The inline AL1-2 allergen-type dict of `_parse_single`. -/
def ALLERGEN_TYPES : List (String × String) := [
  ("DA", "Drug"), ("FA", "Food"), ("EA", "Environmental"),
  ("MA", "Miscellaneous"), ("LA", "Pollen"), ("AA", "Animal")]

/-- The inline AL1-4 severity dict of `_parse_single`. -/
def SEVERITY_CODES : List (String × String) := [
  ("SV", "Severe"), ("MO", "Moderate"), ("MI", "Mild"), ("U", "Unknown")]

/-- A sheet cell as Python produces it: a string, or the float that
`_safe_float` parsed. -/
inductive Cell where
  | str (s : String)
  | num (q : Rat)
deriving DecidableEq

/-- `parser_hl7v2._safe_float`: `float(val) if val else ""` under
`try/except` returning `val or ""` on failure. -/
def hl7_safe_float (val : String) : Cell :=
  if val = "" then .str ""
  else
    match pyFloat? val with
    | some q => .num q
    | none => .str val

/-- Python `a or b` on strings (first operand when non-empty). -/
def orS (a b : String) : String := if a = "" then b else a

/-- Normalize line endings: `raw.replace("\r\n", "\r").replace("\n", "\r")`
(the first replace scans left to right over non-overlapping pairs). -/
def replCRLF : List Char → List Char
  | '\r' :: '\n' :: rest => '\r' :: replCRLF rest
  | c :: rest => c :: replCRLF rest
  | [] => []

def normalizeCR (s : String) : String :=
  ⟨(replCRLF s.data).map (fun c => if c = '\n' then '\r' else c)⟩

/-- `parser_hl7v2.HL7Message`: derived delimiters plus the segment lines
(`_parse` normalizes line endings, splits on carriage returns, strips
each line and drops blanks). -/
structure HL7Msg where
  field_sep : Char
  comp_sep : Char
  rep_sep : Char
  esc_char : Char
  sub_sep : Char
  segments : List String
deriving DecidableEq

def mkHL7Msg (raw : String) (fs cs rs es ss : Char) : HL7Msg :=
  ⟨fs, cs, rs, es, ss,
   ((pySplitChar '\r' (normalizeCR raw)).map pyStrip).filter (· ≠ "")⟩

/-- `HL7Message.get_segments`. -/
def HL7Msg.get_segments (m : HL7Msg) (seg_id : String) : List String :=
  m.segments.filter (fun seg =>
    pyStartsWith seg (seg_id.push m.field_sep) ∨ seg = seg_id)

/-- `HL7Message.get_field` (MSH is special-cased: field 1 is the
separator itself, field 2 the raw encoding characters, higher fields
shift by one). -/
def HL7Msg.get_field (m : HL7Msg) (segment_str : String) (field_num : Nat) :
    String :=
  let parts := pySplitChar m.field_sep segment_str
  if elemD parts 0 = "MSH" then
    if field_num = 0 then "MSH"
    else if field_num = 1 then m.field_sep.toString
    else if field_num = 2 then elemD parts 1
    else
      let idx := field_num - 1
      if idx < parts.length then elemD parts idx else ""
  else if field_num < parts.length then elemD parts field_num else ""

/-- `HL7Message.get_component` (component 1 = first component). -/
def HL7Msg.get_component (m : HL7Msg) (field_val : String) (comp_num : Nat) :
    String :=
  if field_val = "" then ""
  else
    let parts := pySplitChar m.comp_sep field_val
    let idx := comp_num - 1
    if idx < parts.length then elemD parts idx else ""

/-- `HL7Message.get_repetitions`. -/
def HL7Msg.get_repetitions (m : HL7Msg) (field_val : String) : List String :=
  if field_val = "" then [] else pySplitChar m.rep_sep field_val

/-- `parser_hl7v2._format_hl7_date`. -/
def format_hl7_date (val : String) : String :=
  if val = "" then ""
  else if pyLen val < 8 then val
  else pySlice 4 6 val ++ "/" ++ pySlice 6 8 val ++ "/" ++ pySlice 0 4 val

/-- `parser_hl7v2._format_hl7_datetime` (strips a `+`/`-` timezone
suffix first). -/
def format_hl7_datetime (val : String) : String :=
  if val = "" then ""
  else
    let val := elemD (pySplitChar '-' (elemD (pySplitChar '+' val) 0)) 0
    if 12 ≤ pyLen val then
      pySlice 4 6 val ++ "/" ++ pySlice 6 8 val ++ "/" ++ pySlice 0 4 val ++
        " " ++ pySlice 8 10 val ++ ":" ++ pySlice 10 12 val
    else if 8 ≤ pyLen val then
      pySlice 4 6 val ++ "/" ++ pySlice 6 8 val ++ "/" ++ pySlice 0 4 val
    else val

/-- `parser_hl7v2._format_xcn`. -/
def format_xcn (m : HL7Msg) (field_val : String) : String :=
  if field_val = "" then ""
  else
    let id_num := m.get_component field_val 1
    let last := m.get_component field_val 2
    let first := m.get_component field_val 3
    if last ≠ "" ∧ first ≠ "" then last ++ ", " ++ first
    else if last ≠ "" then last
    else id_num

/-- `parser_hl7v2._format_xpn`. -/
def format_xpn (m : HL7Msg) (field_val : String) : String :=
  if field_val = "" then ""
  else
    let last := m.get_component field_val 1
    let first := m.get_component field_val 2
    let middle := m.get_component field_val 3
    let name := if first ≠ "" then last ++ ", " ++ first else last
    if middle ≠ "" then name ++ " " ++ middle else name

/-- `parser_hl7v2._split_messages`: normalize line endings, drop blank
lines and FHS/BHS/BTS/FTS wrappers, start a new message at each MSH,
keep lines only once a message is open, flush the last message. -/
def split_messages (content : String) : List String :=
  let text := normalizeCR content
  let step := fun (acc : List String × List String) (line : String) =>
    let line := pyStrip line
    if line = "" then acc
    else if pyStartsWith line "FHS" ∨ pyStartsWith line "BHS" ∨
            pyStartsWith line "BTS" ∨ pyStartsWith line "FTS" then acc
    else if pyStartsWith line "MSH" then
      (if acc.2 ≠ [] then acc.1 ++ [String.intercalate "\r" acc.2] else acc.1,
       [line])
    else if acc.2 ≠ [] then (acc.1, acc.2 ++ [line])
    else acc
  let r := (pySplitChar '\r' text).foldl step ([], [])
  if r.2 ≠ [] then r.1 ++ [String.intercalate "\r" r.2] else r.1

/-- An OBX record as `_parse_single` builds it (including the
`observation_sub_id` key `_build_sheets` never reads). -/
structure HL7ObsV where
  set_id : String
  value_type : String
  observation_id : String
  observation_name : String
  observation_sub_id : String
  observation_value : String
  units : String
  reference_range : String
  abnormal_flags : String
  result_status : String
  observation_datetime : String
deriving DecidableEq

/-- An FT1 record as `_parse_single` builds it: the two amounts hold
`_safe_float` results (float or string), and `set_id` is stored though
never displayed. -/
structure HL7FinV where
  set_id : String
  transaction_date : String
  transaction_type : String
  transaction_code : String
  transaction_description : String
  quantity : String
  amount_extended : Cell
  amount_unit : Cell
  procedure_code : String
  procedure_description : String
  diagnosis_code : String
deriving DecidableEq

/-- The full per-message dict `_parse_single` returns (`_msg` holds the
`HL7Message` object itself). -/
structure MsgData where
  msgobj : HL7Msg
  sending_app : String
  sending_facility : String
  receiving_app : String
  receiving_facility : String
  message_datetime : String
  message_type : String
  trigger_event : String
  message_structure : String
  message_control_id : String
  version : String
  patients : List HL7Patient
  visits : List HL7Visit
  orders : List HL7Order
  observations : List HL7ObsV
  diagnoses : List HL7Dx
  insurance : List HL7Ins
  allergies : List HL7Allergy
  financials : List HL7FinV
  schedules : List HL7Sched
deriving DecidableEq

/-- The PID block of `_parse_single`. -/
def parsePID (m : HL7Msg) (pid : String) : HL7Patient :=
  let pid3 := m.get_field pid 3
  let reps := m.get_repetitions pid3
  let ids := reps.filterMap (fun rep =>
    let id_val := m.get_component rep 1
    let id_type := m.get_component rep 5
    if id_val ≠ "" then
      some (if id_type ≠ "" then id_val ++ " (" ++ id_type ++ ")" else id_val)
    else none)
  let pid5 := m.get_field pid 5
  let last := m.get_component pid5 1
  let first := m.get_component pid5 2
  let middle := m.get_component pid5 3
  let gender := m.get_field pid 8
  let pid11 := m.get_field pid 11
  let addr_parts := [m.get_component pid11 1, m.get_component pid11 3,
                     m.get_component pid11 4, m.get_component pid11 5]
  { patient_ids := String.intercalate "; " ids
    patient_id := if pid3 ≠ "" then m.get_component pid3 1 else ""
    patient_name := last ++ ", " ++ first ++
      (if middle ≠ "" then " " ++ middle else "")
    dob := format_hl7_date (m.get_field pid 7)
    gender := tableGet GENDER gender gender
    address := String.intercalate ", " (addr_parts.filter (· ≠ ""))
    home_phone := m.get_component (m.get_field pid 13) 1
    account_number := m.get_component (m.get_field pid 18) 1
    ssn := m.get_field pid 19 }

/-- The PV1 block of `_parse_single`. -/
def parsePV1 (m : HL7Msg) (pv1 : String) : HL7Visit :=
  let pclass := m.get_field pv1 2
  let pv1_3 := m.get_field pv1 3
  { patient_class := tableGet PATIENT_CLASS pclass pclass
    location := m.get_component pv1_3 1
    room := m.get_component pv1_3 2
    bed := m.get_component pv1_3 3
    attending_doctor := format_xcn m (m.get_field pv1 7)
    referring_doctor := format_xcn m (m.get_field pv1 8)
    hospital_service := m.get_field pv1 10
    admit_source := m.get_field pv1 14
    admitting_doctor := format_xcn m (m.get_field pv1 17)
    visit_number := m.get_component (m.get_field pv1 19) 1
    discharge_disposition := m.get_field pv1 36
    admit_date := format_hl7_datetime (m.get_field pv1 44)
    discharge_date := format_hl7_datetime (m.get_field pv1 45) }

/-- One iteration of the positional ORC/OBR pairing of `_parse_single`:
the dict starts empty (all keys defaulted to `""` by the final
`setdefault` loop), the ORC part fills its fields when an ORC exists at
this index, then the OBR part fills its fields, respecting the
falsy-guarded keys. -/
def buildOrder (m : HL7Msg) (orcOpt obrOpt : Option String) : HL7Order :=
  let o : HL7Order := ⟨"", "", "", "", "", "", "", "", "", "", "", ""⟩
  let o :=
    match orcOpt with
    | some orc =>
      let ctrl := m.get_field orc 1
      { o with
        order_control :=
          if ctrl ≠ "" then
            ctrl ++ " (" ++ tableGet ORDER_CONTROL ctrl "" ++ ")"
          else ""
        placer_order_num := m.get_component (m.get_field orc 2) 1
        filler_order_num := m.get_component (m.get_field orc 3) 1
        order_status := m.get_field orc 5
        order_datetime := format_hl7_datetime (m.get_field orc 9)
        ordering_provider := format_xcn m (m.get_field orc 12) }
    | none => o
  match obrOpt with
  | some obr =>
    let o := if o.placer_order_num = "" then
               { o with placer_order_num := m.get_component (m.get_field obr 2) 1 }
             else o
    let o := if o.filler_order_num = "" then
               { o with filler_order_num := m.get_component (m.get_field obr 3) 1 }
             else o
    let obr4 := m.get_field obr 4
    let o := { o with
               service_id := m.get_component obr4 1
               service_name := m.get_component obr4 2
               observation_datetime := format_hl7_datetime (m.get_field obr 7) }
    let o := if o.ordering_provider = "" then
               { o with ordering_provider := format_xcn m (m.get_field obr 16) }
             else o
    let status := m.get_field obr 25
    let obr31 := m.get_field obr 31
    { o with
      results_datetime := format_hl7_datetime (m.get_field obr 22)
      result_status :=
        if status ≠ "" then
          status ++ " (" ++ tableGet RESULT_STATUS status "" ++ ")"
        else ""
      reason := orS (m.get_component obr31 2) (m.get_component obr31 1) }
  | none => o

/-- The OBX block of `_parse_single`. -/
def parseOBX (m : HL7Msg) (obx : String) : HL7ObsV :=
  let value_type := m.get_field obx 2
  let obx3 := m.get_field obx 3
  let obx5 := m.get_field obx 5
  let status := m.get_field obx 11
  { set_id := m.get_field obx 1
    value_type := value_type
    observation_id := m.get_component obx3 1
    observation_name := m.get_component obx3 2
    observation_sub_id := m.get_field obx 4
    observation_value :=
      if value_type = "CE" ∨ value_type = "CWE" ∨ value_type = "CNE" then
        orS (m.get_component obx5 2) (m.get_component obx5 1)
      else obx5
    units := m.get_component (m.get_field obx 6) 1
    reference_range := m.get_field obx 7
    abnormal_flags := m.get_field obx 8
    result_status := tableGet RESULT_STATUS status status
    observation_datetime := format_hl7_datetime (m.get_field obx 14) }

/-- The DG1 block of `_parse_single`. -/
def parseDG1 (m : HL7Msg) (dg1 : String) : HL7Dx :=
  let dg1_3 := m.get_field dg1 3
  let dx_type := m.get_field dg1 6
  { set_id := m.get_field dg1 1
    diagnosis_code := m.get_component dg1_3 1
    diagnosis_description := orS (m.get_component dg1_3 2) (m.get_field dg1 4)
    diagnosis_datetime := format_hl7_datetime (m.get_field dg1 5)
    diagnosis_type := tableGet DX_TYPE dx_type dx_type }

/-- The IN1 block of `_parse_single`. -/
def parseIN1 (m : HL7Msg) (in1 : String) : HL7Ins :=
  let in1_2 := m.get_field in1 2
  let in1_3 := m.get_field in1 3
  let in1_4 := m.get_field in1 4
  let in1_9 := m.get_field in1 9
  { set_id := m.get_field in1 1
    plan_id := m.get_component in1_2 1
    plan_name := m.get_component in1_2 2
    company_id := m.get_component in1_3 1
    company_name := orS (m.get_component in1_4 1) in1_4
    group_number := m.get_field in1 8
    group_name := orS (m.get_component in1_9 1) in1_9
    plan_effective_date := format_hl7_date (m.get_field in1 12)
    plan_expiration_date := format_hl7_date (m.get_field in1 13)
    insured_name := format_xpn m (m.get_field in1 16)
    policy_number := m.get_field in1 36 }

/-- The AL1 block of `_parse_single`. -/
def parseAL1 (m : HL7Msg) (al1 : String) : HL7Allergy :=
  let type_code := m.get_field al1 2
  let al1_3 := m.get_field al1 3
  let severity := m.get_field al1 4
  { set_id := m.get_field al1 1
    allergen_type := tableGet ALLERGEN_TYPES type_code type_code
    allergen := orS (m.get_component al1_3 2) (m.get_component al1_3 1)
    severity := tableGet SEVERITY_CODES severity severity
    reaction := m.get_field al1 5 }

/-- The FT1 block of `_parse_single`. -/
def parseFT1 (m : HL7Msg) (ft1 : String) : HL7FinV :=
  let ft1_7 := m.get_field ft1 7
  let ft1_25 := m.get_field ft1 25
  let ft1_19 := m.get_field ft1 19
  { set_id := m.get_field ft1 1
    transaction_date := format_hl7_datetime (m.get_field ft1 4)
    transaction_type := m.get_field ft1 6
    transaction_code := m.get_component ft1_7 1
    transaction_description := m.get_component ft1_7 2
    quantity := m.get_field ft1 10
    amount_extended := hl7_safe_float (m.get_field ft1 11)
    amount_unit := hl7_safe_float (m.get_field ft1 12)
    procedure_code := m.get_component ft1_25 1
    procedure_description := m.get_component ft1_25 2
    diagnosis_code := m.get_component ft1_19 1 }

/-- The SCH block of `_parse_single` (only the first repetition of the
composite SCH-11 timing field is read). -/
def parseSCH (m : HL7Msg) (sch : String) : HL7Sched :=
  let sch7 := m.get_field sch 7
  let sch8 := m.get_field sch 8
  let reps := m.get_repetitions (m.get_field sch 11)
  let timing :=
    match reps with
    | first_rep :: _ =>
      (format_hl7_datetime (m.get_component first_rep 4),
       if m.get_component first_rep 5 ≠ "" then
         format_hl7_datetime (m.get_component first_rep 5)
       else "",
       m.get_component first_rep 3)
    | [] => ("", "", "")
  { placer_appt_id := m.get_component (m.get_field sch 1) 1
    filler_appt_id := m.get_component (m.get_field sch 2) 1
    appointment_reason := orS (m.get_component sch7 2) (m.get_component sch7 1)
    appointment_type := orS (m.get_component sch8 2) (m.get_component sch8 1)
    start_datetime := timing.1
    end_datetime := timing.2.1
    duration := timing.2.2
    filler_status := m.get_field sch 25 }

/-- `parser_hl7v2._parse_single`: detect the delimiters from the MSH
line, build the message, and extract every record family; returns `none`
(Python `None`) when the text does not start with MSH or carries no MSH
segment. -/
def parse_single (raw_msg : String) : Option MsgData :=
  if ¬ pyStartsWith raw_msg "MSH" then none
  else
    let field_sep := if 3 < pyLen raw_msg then raw_msg.data.getD 3 '|' else '|'
    let enc_chars := if raw_msg.data.contains field_sep then
                       elemD (pySplitChar field_sep raw_msg) 1
                     else "^~\\&"
    let comp_sep := enc_chars.data.getD 0 '^'
    let rep_sep := enc_chars.data.getD 1 '~'
    let esc_char := enc_chars.data.getD 2 '\\'
    let sub_sep := enc_chars.data.getD 3 '&'
    let m := mkHL7Msg raw_msg field_sep comp_sep rep_sep esc_char sub_sep
    match m.get_segments "MSH" with
    | [] => none
    | msh :: _ =>
      let msg_type_field := m.get_field msh 9
      let orc_segs := m.get_segments "ORC"
      let obr_segs := m.get_segments "OBR"
      some
        { msgobj := m
          sending_app := m.get_component (m.get_field msh 3) 1
          sending_facility := m.get_component (m.get_field msh 4) 1
          receiving_app := m.get_component (m.get_field msh 5) 1
          receiving_facility := m.get_component (m.get_field msh 6) 1
          message_datetime := format_hl7_datetime (m.get_field msh 7)
          message_type := m.get_component msg_type_field 1
          trigger_event := m.get_component msg_type_field 2
          message_structure := m.get_component msg_type_field 3
          message_control_id := m.get_field msh 10
          version := m.get_component (m.get_field msh 12) 1
          patients := (m.get_segments "PID").map (parsePID m)
          visits := (m.get_segments "PV1").map (parsePV1 m)
          orders := (List.range (max orc_segs.length obr_segs.length)).map
            (fun i => buildOrder m orc_segs[i]? obr_segs[i]?)
          observations := (m.get_segments "OBX").map (parseOBX m)
          diagnoses := (m.get_segments "DG1").map (parseDG1 m)
          insurance := (m.get_segments "IN1").map (parseIN1 m)
          allergies := (m.get_segments "AL1").map (parseAL1 m)
          financials := (m.get_segments "FT1").map (parseFT1 m)
          schedules := (m.get_segments "SCH").map (parseSCH m) }

/-- A sheet with Python-typed cells (the outbound contract's `any[][]`). -/
structure SheetV where
  name : String
  headers : List String
  rows : List (List Cell)
  currency_cols : List Nat
deriving DecidableEq

def hl7MsgRowV (m : MsgData) : List Cell :=
  [m.message_type, m.trigger_event, m.message_datetime, m.message_control_id,
   m.version, m.sending_app, m.sending_facility, m.receiving_app,
   m.receiving_facility].map Cell.str

def hl7PatientRowsV (msgs : List MsgData) : List (List Cell) :=
  msgs.flatMap (fun m => m.patients.map (fun p =>
    (m.message_control_id :: [p.patient_name, p.patient_id, p.patient_ids,
      p.dob, p.gender, p.address, p.home_phone, p.account_number,
      p.ssn]).map Cell.str))

def hl7VisitRowsV (msgs : List MsgData) : List (List Cell) :=
  msgs.flatMap (fun m => m.visits.map (fun v =>
    (m.message_control_id :: [v.patient_class, v.location, v.room, v.bed,
      v.attending_doctor, v.referring_doctor, v.admitting_doctor,
      v.hospital_service, v.visit_number, v.admit_date, v.discharge_date,
      v.discharge_disposition, v.admit_source]).map Cell.str))

def hl7OrderRowsV (msgs : List MsgData) : List (List Cell) :=
  msgs.flatMap (fun m => m.orders.map (fun o =>
    (m.message_control_id :: [o.order_control, o.placer_order_num,
      o.filler_order_num, o.order_status, o.service_id, o.service_name,
      o.ordering_provider, o.order_datetime, o.observation_datetime,
      o.results_datetime, o.result_status, o.reason]).map Cell.str))

def hl7ObsRowsV (msgs : List MsgData) : List (List Cell) :=
  msgs.flatMap (fun m => m.observations.map (fun o =>
    (m.message_control_id :: [o.set_id, o.observation_id, o.observation_name,
      o.observation_value, o.units, o.reference_range, o.abnormal_flags,
      o.result_status, o.observation_datetime, o.value_type]).map Cell.str))

def hl7DxRowsV (msgs : List MsgData) : List (List Cell) :=
  msgs.flatMap (fun m => m.diagnoses.map (fun d =>
    (m.message_control_id :: [d.set_id, d.diagnosis_code,
      d.diagnosis_description, d.diagnosis_type,
      d.diagnosis_datetime]).map Cell.str))

def hl7InsRowsV (msgs : List MsgData) : List (List Cell) :=
  msgs.flatMap (fun m => m.insurance.map (fun i =>
    (m.message_control_id :: [i.set_id, i.plan_id, i.plan_name, i.company_id,
      i.company_name, i.group_number, i.group_name, i.insured_name,
      i.policy_number, i.plan_effective_date,
      i.plan_expiration_date]).map Cell.str))

def hl7AllergyRowsV (msgs : List MsgData) : List (List Cell) :=
  msgs.flatMap (fun m => m.allergies.map (fun a =>
    (m.message_control_id :: [a.set_id, a.allergen_type, a.allergen,
      a.severity, a.reaction]).map Cell.str))

def hl7FinRowsV (msgs : List MsgData) : List (List Cell) :=
  msgs.flatMap (fun m => m.financials.map (fun f =>
    [Cell.str m.message_control_id, Cell.str f.transaction_date,
     Cell.str f.transaction_type, Cell.str f.transaction_code,
     Cell.str f.transaction_description, Cell.str f.quantity,
     f.amount_extended, f.amount_unit, Cell.str f.procedure_code,
     Cell.str f.procedure_description, Cell.str f.diagnosis_code]))

def hl7SchedRowsV (msgs : List MsgData) : List (List Cell) :=
  msgs.flatMap (fun m => m.schedules.map (fun s =>
    (m.message_control_id :: [s.placer_appt_id, s.filler_appt_id,
      s.appointment_reason, s.appointment_type, s.start_datetime,
      s.end_datetime, s.duration, s.filler_status]).map Cell.str))

/-- `parser_hl7v2._build_sheets` over the value-typed records (same
sheets, headers, gating and currency columns as `build_sheets`; the two
FT1 amount cells keep their `float | str` values). -/
def build_sheetsV (msgs : List MsgData) : List SheetV :=
  [⟨"HL7 Messages",
    ["Message Type", "Trigger Event", "Message Date/Time",
     "Message Control ID", "Version", "Sending Application",
     "Sending Facility", "Receiving Application", "Receiving Facility"],
    msgs.map hl7MsgRowV, []⟩] ++
  (if hl7PatientRowsV msgs ≠ [] then
    [⟨"HL7 Patients",
      ["Message Control ID", "Patient Name", "Patient ID", "All Patient IDs",
       "Date of Birth", "Gender", "Address", "Home Phone", "Account Number",
       "SSN"], hl7PatientRowsV msgs, []⟩] else []) ++
  (if hl7VisitRowsV msgs ≠ [] then
    [⟨"HL7 Visits",
      ["Message Control ID", "Patient Class", "Location", "Room", "Bed",
       "Attending Doctor", "Referring Doctor", "Admitting Doctor",
       "Hospital Service", "Visit Number", "Admit Date", "Discharge Date",
       "Discharge Disposition", "Admit Source"], hl7VisitRowsV msgs, []⟩]
   else []) ++
  (if hl7OrderRowsV msgs ≠ [] then
    [⟨"HL7 Orders",
      ["Message Control ID", "Order Control", "Placer Order #",
       "Filler Order #", "Order Status", "Service ID", "Service Name",
       "Ordering Provider", "Order Date/Time", "Observation Date/Time",
       "Results Date/Time", "Result Status", "Reason"],
      hl7OrderRowsV msgs, []⟩] else []) ++
  (if hl7ObsRowsV msgs ≠ [] then
    [⟨"HL7 Results",
      ["Message Control ID", "Set ID", "Observation ID", "Observation Name",
       "Value", "Units", "Reference Range", "Abnormal Flags", "Result Status",
       "Observation Date/Time", "Value Type"], hl7ObsRowsV msgs, []⟩]
   else []) ++
  (if hl7DxRowsV msgs ≠ [] then
    [⟨"HL7 Diagnoses",
      ["Message Control ID", "Set ID", "Diagnosis Code",
       "Diagnosis Description", "Diagnosis Type", "Diagnosis Date"],
      hl7DxRowsV msgs, []⟩] else []) ++
  (if hl7InsRowsV msgs ≠ [] then
    [⟨"HL7 Insurance",
      ["Message Control ID", "Set ID", "Plan ID", "Plan Name", "Company ID",
       "Company Name", "Group Number", "Group Name", "Insured Name",
       "Policy Number", "Plan Effective Date", "Plan Expiration Date"],
      hl7InsRowsV msgs, []⟩] else []) ++
  (if hl7AllergyRowsV msgs ≠ [] then
    [⟨"HL7 Allergies",
      ["Message Control ID", "Set ID", "Allergen Type", "Allergen",
       "Severity", "Reaction"], hl7AllergyRowsV msgs, []⟩] else []) ++
  (if hl7FinRowsV msgs ≠ [] then
    [⟨"HL7 Financial",
      ["Message Control ID", "Transaction Date", "Transaction Type",
       "Transaction Code", "Description", "Quantity", "Amount (Extended)",
       "Amount (Unit)", "Procedure Code", "Procedure Description",
       "Diagnosis Code"], hl7FinRowsV msgs, [7, 8]⟩] else []) ++
  (if hl7SchedRowsV msgs ≠ [] then
    [⟨"HL7 Scheduling",
      ["Message Control ID", "Placer Appointment ID", "Filler Appointment ID",
       "Appointment Reason", "Appointment Type", "Start Date/Time",
       "End Date/Time", "Duration", "Filler Status"],
      hl7SchedRowsV msgs, []⟩] else [])

/-- `parser_hl7v2.parse_hl7v2`: split into messages, parse each
(dropping `None`s), and build sheets unless no message parsed. -/
def parse_hl7v2 (content : String) : List SheetV :=
  let parsed_msgs := (split_messages content).filterMap parse_single
  if parsed_msgs = [] then [] else build_sheetsV parsed_msgs

/-! ## Spec-side definitions used for refinement comparisons -/

/-- Modelled from the spec: `transactionType()` reads the FIRST ST
segment's 2nd element ("first ST segment's 2nd element, recognized
values 835/837, else None").  Compared against `get_transaction_type`,
which keeps scanning past an unrecognized first ST. -/
def specFirstSTCode (esep : Char) (segments : List String) : Option String :=
  segments.findSome? (fun seg =>
    let elements := get_elements esep seg
    if pyUpper (elemD elements 0) = "ST" then some (elemD elements 1) else none)

/-- A `json.loads` stand-in that always fails; used only on inputs whose
classification is decided before the JSON branch is reached. -/
def jsonNone : String → Option PyJson := fun _ => none

/-- The 106-character ISA segment of the repository's own smoke-test
sample (offset 3 holds `*`, offset 104 holds `:`, offset 105 holds `~`). -/
def isaSample : String :=
  "ISA*00*          *00*          *ZZ*SENDER         *ZZ*RECEIVER       " ++
  "*230101*1200*^*00501*000000001*0*P*:~"

/-! ## Claim theorems -/

/-- C6 support: `safe_float` (and `safe_int`) either succeed or absorb
the failure into the default — but `format_edi_date` propagates the
`int()` failure. -/
theorem C6_format_edi_date_raises :
    (∀ s, safe_float s = 0 ∨ ∃ q, pyFloat? s = some q ∧ safe_float s = q) ∧
    (∀ s, safe_int s = 0 ∨ ∃ n, pyInt? s = some n ∧ safe_int s = n) ∧
    format_edi_date "AB0115" =
      Except.error "ValueError: invalid literal for int()" ∧
    (parse_transaction '*' ':' ["ST*835*0001", "DTM*405*AB0115", "SE*3*0001"]).isOk
      = false := by
  refine ⟨?_, ?_, by decide, by decide⟩
  · intro s
    unfold safe_float
    split
    · exact Or.inl rfl
    · cases h : pyFloat? s with
      | none => exact Or.inl (by simp [h])
      | some q => exact Or.inr ⟨q, rfl, by simp [h]⟩
  · intro s
    unfold safe_int
    split
    · exact Or.inl rfl
    · cases h : pyInt? s with
      | none => exact Or.inl (by simp [h])
      | some n => exact Or.inr ⟨n, rfl, by simp [h]⟩

/-- C7 counterexample: `"230115 "` has length 7 (neither 6 nor 8), yet
`format_edi_date` does not return it unchanged — it strips and converts. -/
theorem C7_counterexample :
    format_edi_date "230115 " = Except.ok "01/15/2023" ∧
    pyLen "230115 " ≠ 6 ∧ pyLen "230115 " ≠ 8 ∧
    ("01/15/2023" : String) ≠ "230115 " := by decide

/-- C7 amended: the documented mappings hold; for 6-digit dates (after
stripping) a 2-digit year below 50 gets century 20, otherwise 19; and
every input whose length AFTER stripping surrounding whitespace is
neither 6 nor 8 is returned STRIPPED (not unchanged). -/
theorem C7_amended_format_edi_date :
    format_edi_date "20230115" = Except.ok "01/15/2023" ∧
    format_edi_date "230115" = Except.ok "01/15/2023" ∧
    format_edi_date "990115" = Except.ok "01/15/1999" ∧
    (∀ s, s ≠ "" → pyLen (pyStrip s) ≠ 6 → pyLen (pyStrip s) ≠ 8 →
      format_edi_date s = Except.ok (pyStrip s)) ∧
    (∀ s y, pyLen (pyStrip s) = 6 → pyInt? (pySlice 0 2 (pyStrip s)) = some y →
      format_edi_date s = Except.ok
        (pySlice 2 4 (pyStrip s) ++ "/" ++ pySlice 4 6 (pyStrip s) ++ "/" ++
         (if y < 50 then "20" else "19") ++ pySlice 0 2 (pyStrip s))) := by
  refine ⟨by decide, by decide, by decide, ?_, ?_⟩
  · intro s hs h6 h8
    simp [format_edi_date, hs, h6, h8]
  · intro s y h6 hy
    have hs : s ≠ "" := by
      intro h
      subst h
      exact absurd h6 (by decide)
    have h8 : pyLen (pyStrip s) ≠ 8 := by omega
    simp [format_edi_date, hs, h6, h8, hy]

/-- C7 witness: the amended length rule applied at `"hello"`. -/
theorem C7_witness : format_edi_date "hello" = Except.ok (pyStrip "hello") :=
  C7_amended_format_edi_date.2.2.2.1 "hello" (by decide) (by decide) (by decide)

/-- C1 counterexample: for `CAS*CO*45*50.00*2*10.00` the code produces
exactly ONE adjustment record — reason 45, amount 50.00, quantity 2 —
because the triplets step by 3 (`45`,`50.00`,`2` then `10.00`,-,-, whose
amount element is missing); and a CAS segment whose element 2 is empty
can still produce records (the empty reason is skipped, not a stop). -/
theorem C1_counterexample :
    casTriplets "CO" (tableGet CAS_GROUP_CODES "CO" "CO")
        ((get_elements '*' "CAS*CO*45*50.00*2*10.00").drop 2) =
      [{ group_code := "CO", group_description := "Contractual Obligation",
         reason_code := "45",
         reason_description := "Charges exceed fee schedule/maximum allowable",
         amount := 50, quantity := 2 }] ∧
    (casTriplets "CO" (tableGet CAS_GROUP_CODES "CO" "CO")
        ((get_elements '*' "CAS*CO*45*50.00*2*10.00").drop 2)).length ≠ 2 ∧
    casTriplets "CO" (tableGet CAS_GROUP_CODES "CO" "CO")
        ((get_elements '*' "CAS*CO****45*10.00*1").drop 2) ≠ [] := by decide

/-- C1 amended: adjustment triplets (reason, amount, quantity) are read
from element index 2 stepping by 3, a triplet being processed only while
its amount element exists; a triplet with an empty reason is SKIPPED and
scanning continues (so every emitted record has a non-empty reason and
the CAS group code, but a segment with an empty element 2 may still emit
records from later triplets); `CAS*CO*45*50.00*2*10.00` emits exactly one
record (reason 45, amount 50.00, quantity 2). -/
theorem C1_amended_cas :
    (∀ (gc gd : String) (elements : List String),
        ∀ a ∈ casTriplets gc gd (elements.drop 2),
        a.reason_code ≠ "" ∧ a.group_code = gc ∧ a.group_description = gd) ∧
    casTriplets "CO" (tableGet CAS_GROUP_CODES "CO" "CO")
        ((get_elements '*' "CAS*CO*45*50.00*2*10.00").drop 2) =
      [{ group_code := "CO", group_description := "Contractual Obligation",
         reason_code := "45",
         reason_description := "Charges exceed fee schedule/maximum allowable",
         amount := 50, quantity := 2 }] ∧
    casTriplets "CO" (tableGet CAS_GROUP_CODES "CO" "CO")
        ((get_elements '*' "CAS*CO****45*10.00*1").drop 2) =
      [{ group_code := "CO", group_description := "Contractual Obligation",
         reason_code := "45",
         reason_description := "Charges exceed fee schedule/maximum allowable",
         amount := 10, quantity := 1 }] := by
  refine ⟨?_, by decide, by decide⟩
  intro gc gd elements
  generalize elements.drop 2 = l
  induction l using casTriplets.induct gc gd with
  | case1 a q rest ih =>
    intro x hx
    have he : casTriplets gc gd ("" :: a :: q :: rest) = casTriplets gc gd rest := by
      simp [casTriplets]
    rw [he] at hx
    exact ih x hx
  | case2 r a q rest hr ih =>
    intro x hx
    have he : casTriplets gc gd (r :: a :: q :: rest) =
        { group_code := gc, group_description := gd, reason_code := r,
          reason_description := tableGet REASON_CODES r "",
          amount := safe_float a,
          quantity := safe_float q } :: casTriplets gc gd rest := by
      simp [casTriplets, hr]
    rw [he] at hx
    rcases List.mem_cons.mp hx with h | h
    · subst h
      exact ⟨hr, rfl, rfl⟩
    · exact ih x h
  | case3 a =>
    intro x hx
    simp [casTriplets] at hx
  | case4 r a hr =>
    intro x hx
    have he : casTriplets gc gd [r, a] =
        [{ group_code := gc, group_description := gd, reason_code := r,
           reason_description := tableGet REASON_CODES r "",
           amount := safe_float a, quantity := 0 }] := by
      simp [casTriplets, hr]
    rw [he] at hx
    rcases List.mem_cons.mp hx with h | h
    · subst h
      exact ⟨hr, rfl, rfl⟩
    · simp at h
  | case5 t h1 h2 =>
    intro x hx
    rcases t with _ | ⟨r, _ | ⟨a, _ | ⟨q, rest⟩⟩⟩
    · simp [casTriplets] at hx
    · simp [casTriplets] at hx
    · exact absurd rfl (fun h => h2 r a h)
    · exact absurd rfl (fun h => h1 r a q rest h)

/-- C1 witness: the skip-not-stop membership fact applied at the
concrete second counterexample segment. -/
theorem C1_witness :
    ({ group_code := "CO", group_description := "Contractual Obligation",
       reason_code := "45",
       reason_description := "Charges exceed fee schedule/maximum allowable",
       amount := 10, quantity := 1 } : Adjustment).reason_code ≠ "" ∧
    ({ group_code := "CO", group_description := "Contractual Obligation",
       reason_code := "45",
       reason_description := "Charges exceed fee schedule/maximum allowable",
       amount := 10, quantity := 1 } : Adjustment).group_code = "CO" ∧
    ({ group_code := "CO", group_description := "Contractual Obligation",
       reason_code := "45",
       reason_description := "Charges exceed fee schedule/maximum allowable",
       amount := 10, quantity := 1 } : Adjustment).group_description =
      "Contractual Obligation" :=
  C1_amended_cas.1 "CO" "Contractual Obligation"
    (get_elements '*' "CAS*CO****45*10.00*1") _ (by decide)

lemma data_mk (l : List Char) : (String.mk l).data = l := rfl

/-- Every segment produced by `_split_segments` is non-empty and free of
embedded newlines and carriage returns. -/
lemma split_segments_mem (raw : String) (term : Char) :
    ∀ s ∈ split_segments raw term,
      s ≠ "" ∧ ∀ c ∈ s.data, c ≠ '\n' ∧ c ≠ '\r' := by
  intro s hs
  unfold split_segments at hs
  simp only [List.mem_filter, List.mem_map, decide_not] at hs
  obtain ⟨⟨x, _, rfl⟩, hne⟩ := hs
  refine ⟨by simpa using hne, ?_⟩
  intro c hc
  simp only [cleanSeg, data_mk, List.mem_filter] at hc
  have := hc.2
  simp only [decide_eq_true_eq] at this
  exact this

/-- C4: envelope framing.  Construction fails with the named missing-ISA
error exactly when the cleaned content does not start with "ISA"
case-insensitively, fails with the named too-short error exactly when it
does but is shorter than 106 characters, and on success the three
delimiters are the characters at offsets 3, 104 and 105 of the cleaned
content and the segment list is the terminator-split of the content with
each segment stripped of newlines/carriage-returns and empties dropped. -/
theorem C4_envelope_framing :
    ∀ raw_content : String,
      (mkEDIFile raw_content =
          Except.error "File does not appear to be a valid EDI X12 file (missing ISA segment)"
        ↔ pyStartsWith (pyUpper (detectContent raw_content)) "ISA" = false) ∧
      (mkEDIFile raw_content =
          Except.error "File is too short to contain a valid ISA segment"
        ↔ (pyStartsWith (pyUpper (detectContent raw_content)) "ISA" = true ∧
           pyLen (detectContent raw_content) < 106)) ∧
      (∀ f, mkEDIFile raw_content = Except.ok f →
        f.element_sep = (detectContent raw_content).data.getD 3 ' ' ∧
        f.sub_element_sep = (detectContent raw_content).data.getD 104 ' ' ∧
        f.segment_term = (detectContent raw_content).data.getD 105 ' ' ∧
        f.segments =
          ((pySplitChar f.segment_term (pyStrip (dropBOM (pyStrip raw_content)))).map
            cleanSeg).filter (· ≠ "") ∧
        ∀ s ∈ f.segments, s ≠ "" ∧ ∀ c ∈ s.data, c ≠ '\n' ∧ c ≠ '\r') := by
  intro raw
  simp only [detectContent]
  cases h1 : pyStartsWith (pyUpper (pyLStrip (dropBOM (pyStrip raw)))) "ISA" with
  | false =>
    have hA : mkEDIFile raw =
        Except.error "File does not appear to be a valid EDI X12 file (missing ISA segment)" := by
      simp [mkEDIFile, detect_delimiters, h1]
    refine ⟨iff_of_true hA rfl, iff_of_false ?_ ?_, ?_⟩
    · rw [hA]
      decide
    · rintro ⟨h, -⟩
      exact Bool.false_ne_true (h1 ▸ h)
    · intro f hf
      rw [hA] at hf
      exact Except.noConfusion hf
  | true =>
    by_cases h2 : pyLen (pyLStrip (dropBOM (pyStrip raw))) < 106
    · have hB : mkEDIFile raw =
          Except.error "File is too short to contain a valid ISA segment" := by
        simp [mkEDIFile, detect_delimiters, h1, h2]
      refine ⟨iff_of_false ?_ ?_, iff_of_true hB ⟨rfl, h2⟩, ?_⟩
      · rw [hB]
        decide
      · intro h
        exact Bool.noConfusion h
      · intro f hf
        rw [hB] at hf
        exact Except.noConfusion hf
    · have hC : mkEDIFile raw = Except.ok
          ⟨pyStrip raw,
           (pyLStrip (dropBOM (pyStrip raw))).data.getD 3 ' ',
           (pyLStrip (dropBOM (pyStrip raw))).data.getD 104 ' ',
           (pyLStrip (dropBOM (pyStrip raw))).data.getD 105 ' ',
           split_segments (pyStrip raw)
             ((pyLStrip (dropBOM (pyStrip raw))).data.getD 105 ' ')⟩ := by
        simp [mkEDIFile, detect_delimiters, h1, h2]
      refine ⟨iff_of_false ?_ ?_, iff_of_false ?_ ?_, ?_⟩
      · intro h
        rw [hC] at h
        exact Except.noConfusion h
      · intro h
        exact Bool.noConfusion h
      · intro h
        rw [hC] at h
        exact Except.noConfusion h
      · rintro ⟨-, h⟩
        exact h2 h
      · intro f hf
        rw [hC] at hf
        injection hf with h
        subst h
        exact ⟨rfl, rfl, rfl, rfl, split_segments_mem _ _⟩

/-- C4 witness: the sample envelope frames successfully and its element
separator is the character at offset 3 of the cleaned content. -/
theorem C4_witness :
    (⟨pyStrip (isaSample ++ "ST*835*0001~SE*2*0001~"), '*', ':', '~',
      split_segments (pyStrip (isaSample ++ "ST*835*0001~SE*2*0001~")) '~'⟩ :
        EDIFile).element_sep =
      (detectContent (isaSample ++ "ST*835*0001~SE*2*0001~")).data.getD 3 ' ' :=
  ((C4_envelope_framing (isaSample ++ "ST*835*0001~SE*2*0001~")).2.2 _ (by decide)).1

/-- Invariant-carrying form of C5's shape property: provided the open
accumulator (when inside a transaction) starts with an ST segment and
carries no further ST/SE, every emitted transaction is an ST segment,
then interior segments that are neither ST nor SE, then an SE segment. -/
lemma getTransactionsAux_shape (esep : Char) :
    ∀ (segs current : List String) (inside : Bool),
      (inside = true → ∃ first mid, current = first :: mid ∧
        segIdOf esep first = "ST" ∧
        ∀ s ∈ mid, segIdOf esep s ≠ "ST" ∧ segIdOf esep s ≠ "SE") →
      ∀ t ∈ getTransactionsAux esep current inside segs,
        ∃ first mid last, t = first :: (mid ++ [last]) ∧
          segIdOf esep first = "ST" ∧ segIdOf esep last = "SE" ∧
          ∀ s ∈ mid, segIdOf esep s ≠ "ST" ∧ segIdOf esep s ≠ "SE" := by
  intro segs
  induction segs with
  | nil =>
    intro current inside hinv t ht
    simp [getTransactionsAux] at ht
  | cons seg rest ih =>
    intro current inside hinv t ht
    rw [getTransactionsAux] at ht
    by_cases hst : segIdOf esep seg = "ST"
    · rw [if_pos hst] at ht
      exact ih [seg] true (fun _ => ⟨seg, [], rfl, hst, by simp⟩) t ht
    · rw [if_neg hst] at ht
      by_cases hse : segIdOf esep seg = "SE"
      · rw [if_pos hse] at ht
        cases inside with
        | true =>
          rw [if_pos rfl] at ht
          rcases List.mem_cons.mp ht with h | h
          · obtain ⟨first, mid, hcur, hfst, hmid⟩ := hinv rfl
            subst h
            exact ⟨first, mid, seg, by rw [hcur]; simp, hfst, hse, hmid⟩
          · exact ih [] false (by simp) t h
        | false =>
          rw [if_neg (by simp)] at ht
          exact ih [] false (by simp) t ht
      · rw [if_neg hse] at ht
        cases inside with
        | true =>
          rw [if_pos rfl] at ht
          refine ih (current ++ [seg]) true (fun _ => ?_) t ht
          obtain ⟨first, mid, hcur, hfst, hmid⟩ := hinv rfl
          refine ⟨first, mid ++ [seg], by rw [hcur]; simp, hfst, ?_⟩
          intro s hsm
          rcases List.mem_append.mp hsm with h | h
          · exact hmid s h
          · rw [List.mem_singleton.mp h]
            exact ⟨hst, hse⟩
        | false =>
          rw [if_neg (by simp)] at ht
          exact ih current false (by simp) t ht

/-- Invariant-carrying form of C5's no-duplication property: the emitted
transactions, concatenated, form a sublist of the open accumulator
followed by the remaining segments. -/
lemma getTransactionsAux_flatten_sublist (esep : Char) :
    ∀ (segs current : List String) (inside : Bool),
      List.Sublist ((getTransactionsAux esep current inside segs).flatten)
        ((if inside then current else []) ++ segs) := by
  intro segs
  induction segs with
  | nil =>
    intro current inside
    simp [getTransactionsAux]
  | cons seg rest ih =>
    intro current inside
    rw [getTransactionsAux]
    by_cases hst : segIdOf esep seg = "ST"
    · rw [if_pos hst]
      have h := ih [seg] true
      rw [if_pos rfl] at h
      exact h.trans (List.sublist_append_right _ _)
    · rw [if_neg hst]
      by_cases hse : segIdOf esep seg = "SE"
      · rw [if_pos hse]
        cases inside with
        | true =>
          rw [if_pos rfl]
          have h := ih [] false
          rw [if_neg (by simp)] at h
          simp only [List.flatten_cons, if_pos rfl, List.nil_append] at h ⊢
          rw [List.append_assoc]
          exact List.Sublist.append_left (List.Sublist.cons₂ seg h) current
        | false =>
          rw [if_neg (by simp)]
          have h := ih [] false
          rw [if_neg (by simp)] at h
          simp only [List.nil_append] at h ⊢
          exact h.cons seg
      · rw [if_neg hse]
        cases inside with
        | true =>
          rw [if_pos rfl, if_pos rfl]
          have h := ih (current ++ [seg]) true
          rw [if_pos rfl] at h
          simpa [List.append_assoc] using h
        | false =>
          rw [if_neg (by simp), if_neg (by simp)]
          have h := ih current false
          rw [if_neg (by simp)] at h
          simp only [List.nil_append] at h ⊢
          exact h.cons seg

/-- The shape of a yielded transaction: an ST segment, then interior
segments that are neither ST nor SE, then an SE segment. -/
def txShape (esep : Char) (t : List String) : Prop :=
  ∃ first mid last, t = first :: (mid ++ [last]) ∧
    segIdOf esep first = "ST" ∧ segIdOf esep last = "SE" ∧
    ∀ s ∈ mid, segIdOf esep s ≠ "ST" ∧ segIdOf esep s ≠ "SE"

/-- Alternating concatenation `g₀ ++ t₁ ++ g₁ ++ t₂ ++ ... ++ tₙ ++ gₙ`
of gaps and transactions (used with `gs.length = ts.length + 1`). -/
def glueAlt : List (List String) → List (List String) → List String
  | [], _ => []
  | g :: gs, [] => g ++ gs.flatten
  | g :: gs, t :: ts => g ++ t ++ glueAlt gs ts

/-- A dropped gap contains no matched ST..SE pair: no SE segment occurs
anywhere after an ST segment. -/
def gapFree (esep : Char) (g : List String) : Prop :=
  ∀ a b : String, List.Sublist [a, b] g →
    ¬ (segIdOf esep a = "ST" ∧ segIdOf esep b = "SE")

lemma gapFree_nil (esep : Char) : gapFree esep [] := by
  intro a b h
  rw [List.sublist_nil] at h
  simp at h

lemma gapFree_of_noSE {esep : Char} {g : List String}
    (h : ∀ s ∈ g, segIdOf esep s ≠ "SE") : gapFree esep g := by
  rintro a b hsub ⟨-, hb⟩
  exact h b (hsub.subset (by simp)) hb

lemma gapFree_cons {esep : Char} {s : String} {g : List String}
    (hs : segIdOf esep s ≠ "ST") (hg : gapFree esep g) :
    gapFree esep (s :: g) := by
  rintro a b hsub ⟨ha, hb⟩
  cases hsub with
  | cons _ h' => exact hg a b h' ⟨ha, hb⟩
  | cons₂ _ h' => exact hs ha

lemma glueAlt_cons_append (x g : List String) (gs ts : List (List String)) :
    glueAlt ((x ++ g) :: gs) ts = x ++ glueAlt (g :: gs) ts := by
  cases ts with
  | nil => simp [glueAlt, List.append_assoc]
  | cons t ts => simp [glueAlt, List.append_assoc]

/-- Invariant-carrying decomposition: the segments fed to the scanner
(prefixed with the open accumulator when inside a transaction) are
exactly the alternating concatenation of dropped gaps and yielded
transactions, every gap contains no matched ST..SE pair, and — while a
transaction is open — the upcoming gap (abandoned restarted STs and
their contents) contains no SE at all. -/
lemma getTransactionsAux_decomposition (esep : Char) :
    ∀ (segs current : List String) (inside : Bool),
      (inside = true → ∃ first mid, current = first :: mid ∧
        segIdOf esep first = "ST" ∧
        ∀ s ∈ mid, segIdOf esep s ≠ "ST" ∧ segIdOf esep s ≠ "SE") →
      ∃ gs : List (List String),
        gs.length = (getTransactionsAux esep current inside segs).length + 1 ∧
        glueAlt gs (getTransactionsAux esep current inside segs) =
          (if inside then current else []) ++ segs ∧
        (∀ g ∈ gs, gapFree esep g) ∧
        (inside = true → ∀ s ∈ gs.headD [], segIdOf esep s ≠ "SE") := by
  intro segs
  induction segs with
  | nil =>
    intro current inside hinv
    cases inside with
    | false =>
      refine ⟨[[]], by simp [getTransactionsAux], by simp [getTransactionsAux, glueAlt], ?_, by simp⟩
      intro g hg
      rw [List.mem_singleton.mp hg]
      exact gapFree_nil esep
    | true =>
      obtain ⟨first, mid, rfl, hfst, hmid⟩ := hinv rfl
      have hnoSE : ∀ s ∈ first :: mid, segIdOf esep s ≠ "SE" := by
        intro s hs
        rcases List.mem_cons.mp hs with rfl | hs
        · rw [hfst]
          decide
        · exact (hmid s hs).2
      refine ⟨[first :: mid], by simp [getTransactionsAux],
        by simp [getTransactionsAux, glueAlt], ?_, ?_⟩
      · intro g hg
        rw [List.mem_singleton.mp hg]
        exact gapFree_of_noSE hnoSE
      · intro _
        simpa using hnoSE
  | cons seg rest ih =>
    intro current inside hinv
    rw [getTransactionsAux]
    by_cases hst : segIdOf esep seg = "ST"
    · rw [if_pos hst]
      obtain ⟨gs', hlen', hglue', hgap', hhead'⟩ :=
        ih [seg] true (fun _ => ⟨seg, [], rfl, hst, by simp⟩)
      obtain ⟨g₀, grest, rfl⟩ : ∃ g₀ grest, gs' = g₀ :: grest := by
        cases gs' with
        | nil => simp at hlen'
        | cons a b => exact ⟨a, b, rfl⟩
      have hg₀SE : ∀ s ∈ g₀, segIdOf esep s ≠ "SE" := by
        simpa using hhead' rfl
      cases inside with
      | false =>
        refine ⟨g₀ :: grest, hlen', ?_, hgap', by simp⟩
        rw [hglue']
        simp
      | true =>
        obtain ⟨first, mid, rfl, hfst, hmid⟩ := hinv rfl
        have hcurSE : ∀ s ∈ (first :: mid) ++ g₀, segIdOf esep s ≠ "SE" := by
          intro s hs
          rcases List.mem_append.mp hs with hs | hs
          · rcases List.mem_cons.mp hs with rfl | hs
            · rw [hfst]
              decide
            · exact (hmid s hs).2
          · exact hg₀SE s hs
        refine ⟨((first :: mid) ++ g₀) :: grest, by simpa using hlen', ?_, ?_, ?_⟩
        · rw [glueAlt_cons_append, hglue']
          simp
        · intro g hg
          rcases List.mem_cons.mp hg with rfl | hg
          · exact gapFree_of_noSE hcurSE
          · exact hgap' g (List.mem_cons_of_mem _ hg)
        · intro _
          simpa using hcurSE
    · rw [if_neg hst]
      by_cases hse : segIdOf esep seg = "SE"
      · rw [if_pos hse]
        cases inside with
        | true =>
          rw [if_pos rfl]
          obtain ⟨gs', hlen', hglue', hgap', -⟩ := ih [] false (by simp)
          refine ⟨[] :: gs', by simpa using hlen', ?_, ?_, by simp⟩
          · simp only [glueAlt, hglue']
            simp
          · intro g hg
            rcases List.mem_cons.mp hg with rfl | hg
            · exact gapFree_nil esep
            · exact hgap' g hg
        | false =>
          rw [if_neg (by simp)]
          obtain ⟨gs', hlen', hglue', hgap', -⟩ := ih [] false (by simp)
          obtain ⟨g₀, grest, rfl⟩ : ∃ g₀ grest, gs' = g₀ :: grest := by
            cases gs' with
            | nil => simp at hlen'
            | cons a b => exact ⟨a, b, rfl⟩
          refine ⟨(seg :: g₀) :: grest, hlen', ?_, ?_, by simp⟩
          · rw [show seg :: g₀ = [seg] ++ g₀ from rfl, glueAlt_cons_append, hglue']
            simp
          · intro g hg
            rcases List.mem_cons.mp hg with rfl | hg
            · exact gapFree_cons hst (hgap' g₀ (List.mem_cons_self _ _))
            · exact hgap' g (List.mem_cons_of_mem _ hg)
      · rw [if_neg hse]
        cases inside with
        | true =>
          rw [if_pos rfl]
          obtain ⟨first, mid, rfl, hfst, hmid⟩ := hinv rfl
          have hmid' : ∀ s ∈ mid ++ [seg],
              segIdOf esep s ≠ "ST" ∧ segIdOf esep s ≠ "SE" := by
            intro s hs
            rcases List.mem_append.mp hs with hs | hs
            · exact hmid s hs
            · rw [List.mem_singleton.mp hs]
              exact ⟨hst, hse⟩
          obtain ⟨gs', hlen', hglue', hgap', hhead'⟩ :=
            ih ((first :: mid) ++ [seg]) true
              (fun _ => ⟨first, mid ++ [seg], by simp, hfst, hmid'⟩)
          refine ⟨gs', hlen', ?_, hgap', hhead'⟩
          rw [hglue']
          simp [List.append_assoc]
        | false =>
          rw [if_neg (by simp)]
          obtain ⟨gs', hlen', hglue', hgap', -⟩ := ih current false (by simp)
          obtain ⟨g₀, grest, rfl⟩ : ∃ g₀ grest, gs' = g₀ :: grest := by
            cases gs' with
            | nil => simp at hlen'
            | cons a b => exact ⟨a, b, rfl⟩
          refine ⟨(seg :: g₀) :: grest, hlen', ?_, ?_, by simp⟩
          · rw [show seg :: g₀ = [seg] ++ g₀ from rfl, glueAlt_cons_append, hglue']
            simp
          · intro g hg
            rcases List.mem_cons.mp hg with rfl | hg
            · exact gapFree_cons hst (hgap' g₀ (List.mem_cons_self _ _))
            · exact hgap' g (List.mem_cons_of_mem _ hg)

/-- C5: every transaction yielded by `get_transactions` has the
ST/interior/SE shape, and the envelope's segment list is EXACTLY the
alternating concatenation of dropped gaps and the yielded transactions
in order, where no dropped gap contains an SE after an ST.  Hence: each
yielded slice is contiguous in the input, exactly one transaction is
yielded per matched ST..SE pair (the gaps contain no matched pair), an
SE without a prior unmatched ST lies in a gap and is dropped, a trailing
unterminated ST lies in the final gap and is dropped, and every segment
outside the yielded ST..SE slices lies in a gap, so it appears in no
transaction; the flatten-sublist conjunct additionally records that no
segment occurrence lands in two transactions. -/
theorem C5_transactions_wellformed :
    ∀ e : EDIFile,
      (∀ t ∈ get_transactions e, txShape e.element_sep t) ∧
      (∃ gs : List (List String),
          gs.length = (get_transactions e).length + 1 ∧
          glueAlt gs (get_transactions e) = e.segments ∧
          ∀ g ∈ gs, gapFree e.element_sep g) ∧
      List.Sublist (get_transactions e).flatten e.segments := by
  intro e
  refine ⟨?_, ?_, ?_⟩
  · intro t ht
    exact getTransactionsAux_shape e.element_sep e.segments [] false (by simp) t ht
  · obtain ⟨gs, hlen, hglue, hgap, -⟩ :=
      getTransactionsAux_decomposition e.element_sep e.segments [] false (by simp)
    rw [if_neg (by simp)] at hglue
    exact ⟨gs, hlen, by simpa [get_transactions] using hglue, hgap⟩
  · have h := getTransactionsAux_flatten_sublist e.element_sep e.segments [] false
    rw [if_neg (by simp)] at h
    simpa using h

/-- An envelope value with a stray leading SE, one full ST..SE pair, an
out-of-transaction TRN, and a trailing unterminated ST. -/
def c5file : EDIFile :=
  ⟨"", '*', ':', '~',
   ["SE*1*0", "ST*835*0001", "REF*A", "SE*2*0001", "TRN*X", "ST*837*9"]⟩

/-- C5 witness: the shape property applied to the single transaction the
sample envelope yields. -/
theorem C5_witness :
    txShape c5file.element_sep ["ST*835*0001", "REF*A", "SE*2*0001"] :=
  (C5_transactions_wellformed c5file).1 _ (by decide)

/-- C2: in a transaction holding an open claim and an open service line,
`DTM*232`, `DTM*233` and `DTM*472` set NOTHING — the first `DTM` arm of
the `elif` chain (the qualifier-405 payment-date fallback) matches every
DTM segment, so the claim/service DTM arm can never run and the
statement dates and service date stay empty. -/
theorem C2_dtm_dead_branch :
    (parse_transaction '*' ':' ["ST*835*0001",
        "CLP*CLM001*1*500.00*400.00*50.00*12*PAYERCLM001",
        "DTM*232*20221215", "DTM*233*20221215",
        "SVC*HC:99213*250.00*200.00**1", "DTM*472*20221215",
        "SE*7*0001"]).map (fun r => r.claims.map (fun c =>
          (c.claim_statement_from, c.claim_statement_to, c.claim_received_date,
           c.coverage_expiration_date,
           c.service_lines.map (fun s => s.service_date)))) =
      Except.ok [("", "", "", "", [""])] := by decide

/-- C3 counterexample: an envelope whose FIRST ST carries code 850 and a
later ST carries 835 — the claim says the result is None (first ST's
2nd element is neither 835 nor 837), but the code keeps scanning and
returns "835". -/
theorem C3_counterexample :
    (mkEDIFile (isaSample ++ "ST*850*0001~ST*835*0002~SE*2*0002~")).map
        (fun f => (specFirstSTCode f.element_sep f.segments,
                   get_transaction_type f)) =
      Except.ok (some "850", some "835") := by decide

/-- C3 amended: `get_transaction_type` returns the 2nd element of the
first ST segment whose 2nd element is a RECOGNIZED code (835 or 837),
scanning the whole segment list, and None when no ST segment carries a
recognized code (in particular, when the first ST's 2nd element is 835
or 837 that code is returned). -/
theorem C3_amended_transaction_type :
    ∀ e : EDIFile,
      get_transaction_type e =
        e.segments.findSome? (fun seg =>
          let code := elemD (get_elements e.element_sep seg) 1
          if pyUpper (elemD (get_elements e.element_sep seg) 0) = "ST" ∧
             (code = "835" ∨ code = "837") then some code else none) := by
  intro e
  unfold get_transaction_type
  generalize e.segments = segs
  induction segs with
  | nil => rfl
  | cons seg rest ih =>
    rw [getTransactionTypeAux, List.findSome?]
    by_cases hst : pyUpper (elemD (get_elements e.element_sep seg) 0) = "ST"
    · by_cases h835 : elemD (get_elements e.element_sep seg) 1 = "835"
      · simp [hst, h835]
      · by_cases h837 : elemD (get_elements e.element_sep seg) 1 = "837"
        · simp [hst, h835, h837]
        · simp [hst, h835, h837, ih]
    · simp [hst, ih]

lemma mk_data (s : String) : String.mk s.data = s := by
  cases s
  rfl

lemma ne_empty_of_data_cons {s : String} {c : Char} {t : List Char}
    (h : s.data = c :: t) : s ≠ "" := by
  intro he
  rw [he] at h
  exact List.noConfusion h

lemma rstrip_eq_nil {p : Char → Bool} {l : List Char}
    (h : rstripList p l = []) : ∀ c ∈ l, p c = true := by
  unfold rstripList at h
  rw [List.reverse_eq_nil_iff, List.dropWhile_eq_nil_iff] at h
  intro c hc
  exact h c (List.mem_reverse.mpr hc)

lemma strip_all_space {l : List Char}
    (h : rstripList pyIsSpace (lstripList pyIsSpace l) = []) :
    ∀ c ∈ l, pyIsSpace c = true := by
  intro c hc
  rw [← List.takeWhile_append_dropWhile (p := pyIsSpace) (l := l)] at hc
  rcases List.mem_append.mp hc with h1 | h1
  · exact List.mem_takeWhile_imp h1
  · exact rstrip_eq_nil h c h1

/-- If the whole content strips to nothing, stripping after BOM removal
also gives nothing (the BOM is not whitespace, so an all-whitespace text
contains none). -/
lemma pyStrip_dropBOM_of_empty {s : String} (h : pyStrip s = "") :
    pyStrip (dropBOM s) = "" := by
  cases s with
  | mk l =>
    have hd : rstripList pyIsSpace (lstripList pyIsSpace l) = [] :=
      congrArg String.data h
    have hall := strip_all_space hd
    cases l with
    | nil => rfl
    | cons c t =>
      have hc := hall c (List.mem_cons_self c t)
      have hcb : decide (c = bomChar) = false := by
        rcases Decidable.eq_or_ne c bomChar with rfl | hne
        · exact absurd hc (by decide)
        · simp [hne]
      show pyStrip ⟨(c :: t).dropWhile (fun x => x = bomChar)⟩ = ""
      rw [List.dropWhile_cons, hcb]
      simp only [Bool.false_eq_true, if_false]
      exact h

lemma startsWithList_iff (p : List Char) :
    ∀ cs, startsWithList cs p = true ↔ ∃ t, cs = p ++ t := by
  induction p with
  | nil =>
    intro cs
    simp [startsWithList]
  | cons b bs ih =>
    intro cs
    cases cs with
    | nil => simp [startsWithList]
    | cons a as =>
      rw [startsWithList]
      simp only [Bool.and_eq_true, decide_eq_true_eq, ih as, List.cons_append,
        List.cons.injEq]
      constructor
      · rintro ⟨rfl, t, rfl⟩
        exact ⟨t, rfl, rfl⟩
      · rintro ⟨t, rfl, rfl⟩
        exact ⟨rfl, t, rfl⟩

/-- Stripping a text that begins `MSH|` leaves a text that still begins
`MSH|`: the leading `M` blocks the left strip, and the right strip can
eat at most into the tail because `|` is not whitespace. -/
lemma pyStrip_msh {l t : List Char} (hl : l = 'M' :: 'S' :: 'H' :: '|' :: t) :
    ∃ t', rstripList pyIsSpace (lstripList pyIsSpace l) =
      'M' :: 'S' :: 'H' :: '|' :: t' := by
  subst hl
  have h1 : lstripList pyIsSpace ('M' :: 'S' :: 'H' :: '|' :: t) =
      'M' :: 'S' :: 'H' :: '|' :: t := by
    unfold lstripList
    rw [List.dropWhile_cons]
    simp [show pyIsSpace 'M' = false from by decide]
  rw [h1]
  unfold rstripList
  have h2 : ('M' :: 'S' :: 'H' :: '|' :: t).reverse =
      t.reverse ++ ['|', 'H', 'S', 'M'] := by simp
  rw [h2, List.dropWhile_append]
  split
  · rw [show List.dropWhile pyIsSpace ['|', 'H', 'S', 'M'] = ['|', 'H', 'S', 'M']
        from by decide]
    exact ⟨[], by simp⟩
  · exact ⟨(List.dropWhile pyIsSpace t.reverse).reverse, by simp⟩

lemma detectCsvLines_cases (s : String) :
    detectCsvLines s = none ∨ detectCsvLines s = some "csv" := by
  simp only [detectCsvLines]
  split_ifs <;> simp

lemma detectXmlOrCsv_cases (s : String) :
    detectXmlOrCsv s = none ∨ detectXmlOrCsv s = some "fhir" ∨
      detectXmlOrCsv s = some "cda" ∨ detectXmlOrCsv s = some "csv" := by
  simp only [detectXmlOrCsv]
  split_ifs <;>
    first
    | simp
    | (rcases detectCsvLines_cases s with h | h <;> simp [h])

/-- The padding step of `_parse_csv` always yields rows of exactly the
header width. -/
lemma pad_len (row : List String) (n : Nat) :
    ((if row.length < n then row ++ List.replicate (n - row.length) ""
      else row).take n).length = n := by
  split
  · next h =>
    have hl : (row ++ List.replicate (n - row.length) "").length = n := by
      rw [List.length_append, List.length_replicate]
      omega
    rw [List.length_take, hl, Nat.min_self]
  · next h =>
    rw [List.length_take]
    exact Nat.min_eq_left (by omega)

lemma parse_csv_row_len :
    ∀ (rows_data : List (List String)) (has_header : Bool),
      ∀ s ∈ parse_csv_sheets rows_data has_header,
        ∀ r ∈ s.rows, r.length = s.headers.length := by
  intro rd hh s hs r hr
  cases rd with
  | nil => simp [parse_csv_sheets] at hs
  | cons first rest =>
    simp only [parse_csv_sheets, List.mem_singleton] at hs
    subst hs
    simp only [List.mem_map] at hr
    obtain ⟨row, -, rfl⟩ := hr
    exact pad_len row _

lemma hl7PatientRows_len (msgs : List HL7ParsedMsg) :
    ∀ r ∈ hl7PatientRows msgs, r.length = 10 := by
  intro r hr
  simp only [hl7PatientRows, List.mem_flatMap, List.mem_map] at hr
  obtain ⟨m, -, p, -, rfl⟩ := hr
  rfl

lemma hl7VisitRows_len (msgs : List HL7ParsedMsg) :
    ∀ r ∈ hl7VisitRows msgs, r.length = 14 := by
  intro r hr
  simp only [hl7VisitRows, List.mem_flatMap, List.mem_map] at hr
  obtain ⟨m, -, p, -, rfl⟩ := hr
  rfl

lemma hl7OrderRows_len (msgs : List HL7ParsedMsg) :
    ∀ r ∈ hl7OrderRows msgs, r.length = 13 := by
  intro r hr
  simp only [hl7OrderRows, List.mem_flatMap, List.mem_map] at hr
  obtain ⟨m, -, p, -, rfl⟩ := hr
  rfl

lemma hl7ObsRows_len (msgs : List HL7ParsedMsg) :
    ∀ r ∈ hl7ObsRows msgs, r.length = 11 := by
  intro r hr
  simp only [hl7ObsRows, List.mem_flatMap, List.mem_map] at hr
  obtain ⟨m, -, p, -, rfl⟩ := hr
  rfl

lemma hl7DxRows_len (msgs : List HL7ParsedMsg) :
    ∀ r ∈ hl7DxRows msgs, r.length = 6 := by
  intro r hr
  simp only [hl7DxRows, List.mem_flatMap, List.mem_map] at hr
  obtain ⟨m, -, p, -, rfl⟩ := hr
  rfl

lemma hl7InsRows_len (msgs : List HL7ParsedMsg) :
    ∀ r ∈ hl7InsRows msgs, r.length = 12 := by
  intro r hr
  simp only [hl7InsRows, List.mem_flatMap, List.mem_map] at hr
  obtain ⟨m, -, p, -, rfl⟩ := hr
  rfl

lemma hl7AllergyRows_len (msgs : List HL7ParsedMsg) :
    ∀ r ∈ hl7AllergyRows msgs, r.length = 6 := by
  intro r hr
  simp only [hl7AllergyRows, List.mem_flatMap, List.mem_map] at hr
  obtain ⟨m, -, p, -, rfl⟩ := hr
  rfl

lemma hl7FinRows_len (msgs : List HL7ParsedMsg) :
    ∀ r ∈ hl7FinRows msgs, r.length = 11 := by
  intro r hr
  simp only [hl7FinRows, List.mem_flatMap, List.mem_map] at hr
  obtain ⟨m, -, p, -, rfl⟩ := hr
  rfl

lemma hl7SchedRows_len (msgs : List HL7ParsedMsg) :
    ∀ r ∈ hl7SchedRows msgs, r.length = 9 := by
  intro r hr
  simp only [hl7SchedRows, List.mem_flatMap, List.mem_map] at hr
  obtain ⟨m, -, p, -, rfl⟩ := hr
  rfl

lemma mem_ite_singleton {c : Prop} [Decidable c] {x s : Sheet}
    (h : s ∈ (if c then [x] else [])) : s = x := by
  split at h
  · simpa using h
  · simp at h

lemma build_sheets_row_len :
    ∀ (msgs : List HL7ParsedMsg), ∀ s ∈ build_sheets msgs,
      ∀ r ∈ s.rows, r.length = s.headers.length := by
  intro msgs s hs r hr
  unfold build_sheets at hs
  simp only [List.mem_append] at hs
  rcases hs with ((((((((h | h) | h) | h) | h) | h) | h) | h) | h) | h
  · rw [List.mem_singleton.mp h] at hr ⊢
    simp only [List.mem_map] at hr
    obtain ⟨m, -, rfl⟩ := hr
    rfl
  · rw [mem_ite_singleton h] at hr ⊢
    exact hl7PatientRows_len msgs r hr
  · rw [mem_ite_singleton h] at hr ⊢
    exact hl7VisitRows_len msgs r hr
  · rw [mem_ite_singleton h] at hr ⊢
    exact hl7OrderRows_len msgs r hr
  · rw [mem_ite_singleton h] at hr ⊢
    exact hl7ObsRows_len msgs r hr
  · rw [mem_ite_singleton h] at hr ⊢
    exact hl7DxRows_len msgs r hr
  · rw [mem_ite_singleton h] at hr ⊢
    exact hl7InsRows_len msgs r hr
  · rw [mem_ite_singleton h] at hr ⊢
    exact hl7AllergyRows_len msgs r hr
  · rw [mem_ite_singleton h] at hr ⊢
    exact hl7FinRows_len msgs r hr
  · rw [mem_ite_singleton h] at hr ⊢
    exact hl7SchedRows_len msgs r hr

/-- C9: every sheet produced by `_parse_csv` (for any reader output and
header decision) and by the HL7 `_build_sheets` has rows of exactly the
header width, short CSV rows being padded with empty strings; in
particular a 4-column header with a 2-value data row yields the row
`["1", "2", "", ""]` and no index error. -/
theorem C9_sheet_row_lengths :
    (∀ (rows_data : List (List String)) (has_header : Bool),
        ∀ s ∈ parse_csv_sheets rows_data has_header,
          ∀ r ∈ s.rows, r.length = s.headers.length) ∧
    (∀ (msgs : List HL7ParsedMsg), ∀ s ∈ build_sheets msgs,
        ∀ r ∈ s.rows, r.length = s.headers.length) ∧
    (∀ hh : Bool, ∃ s,
        parse_csv_sheets [["A", "B", "C", "D"], ["1", "2"]] hh = [s] ∧
        ["1", "2", "", ""] ∈ s.rows ∧ s.headers.length = 4) := by
  refine ⟨parse_csv_row_len, build_sheets_row_len, ?_⟩
  intro hh
  cases hh
  · exact ⟨_, rfl, by decide, by decide⟩
  · exact ⟨_, rfl, by decide, by decide⟩

/-- C9 witness: the padding invariant applied to the concrete 4-column
sheet with a 2-value data row. -/
theorem C9_witness :
    (["1", "2", "", ""] : List String).length =
      (Sheet.mk "Data" ["A", "B", "C", "D"] [["1", "2", "", ""]] []).headers.length :=
  C9_sheet_row_lengths.1 [["A", "B", "C", "D"], ["1", "2"]] true _ (by decide)
    _ (by decide)

/-- C8 counterexample: content that starts `MSH|` but carries an NCPDP
control character (0x1C) within its first 200 characters is classified
"ncpdp", not "hl7v2" — the NCPDP check precedes the HL7 check.  (The
JSON branch is not reached on this input, so the `json.loads` stand-in
is irrelevant.) -/
theorem C8_counterexample :
    pyStartsWith "MSH|^~\\&|AP\x1cP|FAC" "MSH|" = true ∧
    detect_format jsonNone "MSH|^~\\&|AP\x1cP|FAC" = some "ncpdp" ∧
    (some "ncpdp" : Option String) ≠ some "hl7v2" := by decide

/-- C8 amended: the detector's priority order holds with first match
winning, with the NCPDP checks strictly first: content whose first 200
characters hold no NCPDP control character, whose first non-BOM
character is not one either, whose stripped text starts with "ISA"
case-insensitively with no leading 6-digit BIN pattern, and whose
stripped length is at least 106 is classified "x12" (regardless of any
later comma-heavy lines); content starting "MSH|" with no NCPDP control
character in its first 200 characters is classified "hl7v2" (regardless
of later JSON-like substrings); and for every input and every `json.loads`
behaviour the detector returns one of the six format tags or none. -/
theorem C8_amended_detect_format :
    (∀ (j : String → Option PyJson) (content : String),
        hasNcpdpCtrl (pyTake 200 content) = false →
        ¬ isNcpdpCtrl ((dropBOM content).data.getD 0 ' ') →
        binMatch (pyStrip (dropBOM content)) = false →
        pyUpper (pyTake 3 (pyStrip (dropBOM content))) = "ISA" →
        106 ≤ pyLen (pyStrip (dropBOM content)) →
        detect_format j content = some "x12") ∧
    (∀ (j : String → Option PyJson) (content : String),
        pyStartsWith content "MSH|" = true →
        hasNcpdpCtrl (pyTake 200 content) = false →
        detect_format j content = some "hl7v2") ∧
    (∀ (j : String → Option PyJson) (content : String),
        detect_format j content = none ∨ detect_format j content = some "ncpdp" ∨
        detect_format j content = some "x12" ∨
        detect_format j content = some "hl7v2" ∨
        detect_format j content = some "fhir" ∨
        detect_format j content = some "cda" ∨
        detect_format j content = some "csv") := by
  refine ⟨?_, ?_, ?_⟩
  · intro j content h200 hctrl hbin hisa hlen
    have hsne : pyStrip (dropBOM content) ≠ "" := by
      intro he
      rw [he] at hlen
      exact absurd hlen (by decide)
    have hguard : ¬ (content = "" ∨ pyStrip content = "") := by
      rintro (rfl | he)
      · exact hsne rfl
      · exact hsne (pyStrip_dropBOM_of_empty he)
    rw [List.getD_eq_getElem?_getD] at hctrl
    simp [detect_format, hguard, h200, hbin, hisa, hlen]
    intro
    exact hctrl
  · intro j content hmsh h200
    obtain ⟨t, hdata⟩ := (startsWithList_iff "MSH|".data content.data).mp hmsh
    have hdata' : content.data = 'M' :: 'S' :: 'H' :: '|' :: t := by
      simpa using hdata
    have hbom : dropBOM content = content := by
      show String.mk (content.data.dropWhile (fun x => x = bomChar)) = content
      rw [hdata', List.dropWhile_cons]
      simp only [show decide ('M' = bomChar) = false from by decide,
        Bool.false_eq_true, if_false]
      rw [← hdata']
    obtain ⟨t', hstr⟩ := pyStrip_msh hdata'
    have hstripdata : (pyStrip content).data = 'M' :: 'S' :: 'H' :: '|' :: t' := hstr
    have hguard : ¬ (content = "" ∨ pyStrip content = "") := by
      rintro (rfl | he)
      · exact List.noConfusion hdata'
      · rw [he] at hstripdata
        exact List.noConfusion hstripdata
    have hctrl2 : ¬ isNcpdpCtrl ((dropBOM content).data[0]?.getD ' ') := by
      rw [hbom]
      intro h
      rw [hdata'] at h
      rw [show (('M' :: 'S' :: 'H' :: '|' :: t : List Char))[0]?.getD ' ' = 'M'
        from rfl] at h
      exact absurd h (by decide)
    have hbin : binMatch (pyStrip (dropBOM content)) = false := by
      rw [hbom]
      unfold binMatch
      rw [hstripdata]
      simp [allDigits, show ('M'.isDigit) = false from by decide]
    have hisa : ¬ (pyUpper (pyTake 3 (pyStrip (dropBOM content))) = "ISA" ∧
        106 ≤ pyLen (pyStrip (dropBOM content))) := by
      rw [hbom]
      rintro ⟨h, -⟩
      have hmsh3 : pyUpper (pyTake 3 (pyStrip content)) = "MSH" := by
        show pyUpper ⟨(pyStrip content).data.take 3⟩ = "MSH"
        rw [hstripdata]
        rw [show List.take 3 ('M' :: 'S' :: 'H' :: '|' :: t') = ['M', 'S', 'H']
          from rfl]
        decide
      rw [hmsh3] at h
      exact absurd h (by decide)
    have hhl7 : hl7HeadMatch (pyStrip (dropBOM content)) = true := by
      rw [hbom]
      unfold hl7HeadMatch pyStartsWith
      rw [hstripdata]
      rfl
    simp [detect_format, hguard, h200, hbin, hisa, hhl7]
    intro
    exact hctrl2
  · intro j content
    simp only [detect_format]
    split_ifs
    all_goals
      cases hjs : j (pyStrip (dropBOM content)) with
      | none =>
        rcases detectXmlOrCsv_cases (pyStrip (dropBOM content)) with
          h | h | h | h <;> simp [hjs, h]
      | some v =>
        rcases detectXmlOrCsv_cases (pyStrip (dropBOM content)) with
          h | h | h | h <;> cases hv : jsonHasRT v <;> simp [hjs, hv, h]

/-- C8 witness: the amended MSH rule applied at clean HL7 content. -/
theorem C8_witness :
    detect_format jsonNone "MSH|^~\\&|APP|FAC" = some "hl7v2" :=
  C8_amended_detect_format.2.1 jsonNone "MSH|^~\\&|APP|FAC" (by decide) (by decide)

/-- C10: both parse entry points are pure functions of their inputs, so
re-parsing identical content yields structurally identical results and
no state is shared or mutated across parses.  `parse_835` depends only
on the envelope's delimiters and segment list — two parses of
structurally identical envelopes (whatever their incidental `raw` field)
give structurally identical results — and `parse_hl7v2` (fully embedded
above: framing, per-message decoding, sheet building) maps equal content
to equal sheet lists; the embeddings hold no state across calls,
mirroring the Python code whose state is all local to one call. -/
theorem C10_parse_deterministic :
    (∀ e₁ e₂ : EDIFile, e₁.element_sep = e₂.element_sep →
      e₁.sub_element_sep = e₂.sub_element_sep → e₁.segments = e₂.segments →
      parse_835 e₁ = parse_835 e₂) ∧
    (∀ c₁ c₂ : String, c₁ = c₂ → parse_hl7v2 c₁ = parse_hl7v2 c₂) := by
  constructor
  · intro e₁ e₂ h1 h2 h3
    unfold parse_835
    rw [h1, h2, h3]
  · intro c₁ c₂ h
    rw [h]

/-- C10 witness: two envelope values with the same delimiters and
segments (but different raw text) parse identically, and a second run of
`parse_hl7v2` on the same message equals the first. -/
theorem C10_witness :
    (parse_835 ⟨"first raw", '*', ':', '~', ["ST*835*0001", "SE*2*0001"]⟩ =
      parse_835 ⟨"second raw", '*', ':', '~', ["ST*835*0001", "SE*2*0001"]⟩) ∧
    parse_hl7v2 "MSH|^~\\&|APP|FAC|||20230101||ADT^A01|MSG0001|P|2.5" =
      parse_hl7v2 "MSH|^~\\&|APP|FAC|||20230101||ADT^A01|MSG0001|P|2.5" :=
  ⟨C10_parse_deterministic.1 _ _ rfl rfl rfl,
   C10_parse_deterministic.2 _ _ rfl⟩

end X83
